import Mathlib

/-!
# Verification of the `tket-json-rs` pass-descriptor codec

A shallow embedding of the serialization model of `src/pass.rs` and
`src/pass/standard.rs`: the `BasePass` tree (serde internally-tagged with
`pass_class`, payload stored in a field named after the variant) and the
`StandardPass` catalog (serde internally-tagged with `name`, payload fields
flattened).  JSON documents are modelled by `JsonValue`; the serde-derived
`Serialize`/`Deserialize` implementations are modelled by explicit
`encode*`/`decode*` functions following serde's documented semantics:
unknown struct fields are ignored, `Option` fields are omitted when absent
and decode to `none` when the key is missing or `null`, unknown enum tags
are `unknown variant` errors, and non-finite floats serialize as `null`.
-/

set_option linter.unusedVariables false

/-- Model of a JSON document (`serde_json::Value`).  Numbers are modelled as
rationals; JSON has no non-finite numbers. -/
inductive JsonValue where
  | null
  | bool (b : Bool)
  | num (q : Rat)
  | str (s : String)
  | arr (items : List JsonValue)
  | obj (fields : List (String × JsonValue))

/-- Model of a Rust `f64` as stored in the pass structs: either a finite value
(modelled as a rational) or one of the non-finite floats. -/
inductive F64 where
  | finite (val : Rat)
  | nan
  | posInf
  | negInf
deriving DecidableEq

/-- Whether an `F64` is a finite float. -/
def F64.isFinite : F64 → Bool
  | .finite _ => true
  | _ => false

/-- Model of Rust `u32` (used by `ComposePhasePolyBoxes::min_size`). -/
abbrev U32 := {n : Nat // n < 4294967296}

/-- Model of Rust `i64` (used by `RoundAngles::n`). -/
abbrev I64 := {n : Int // -9223372036854775808 ≤ n ∧ n < 9223372036854775808}

/-- Decode errors, mirroring the `serde_json` error categories produced while
deserializing a pass document: missing field, unknown variant/tag, a JSON
value of the wrong type, and a tuple of the wrong length. -/
inductive DecodeError where
  | missingField (name : String)
  | unknownVariant (name : String)
  | typeMismatch (expected : String)
  | invalidLength (expected : Nat)
deriving DecidableEq

/-- Field lookup in a JSON object: serde's derived struct visitors fill each
declared field from the entry with the matching key. -/
def findField (k : String) : List (String × JsonValue) → Option JsonValue
  | [] => none
  | (k', v) :: rest => if k' = k then some v else findField k rest

theorem findField_sizeOf {k : String} {l : List (String × JsonValue)} {v : JsonValue}
    (h : findField k l = some v) : sizeOf v < sizeOf l := by
  induction l with
  | nil => simp [findField] at h
  | cons hd tl ih =>
    obtain ⟨k', w⟩ := hd
    by_cases hk : k' = k
    · simp [findField, hk] at h
      subst h
      simp
      omega
    · simp [findField, hk] at h
      have := ih h
      simp
      omega

theorem findField_opt_sizeOf {k : String} {l : List (String × JsonValue)} :
    sizeOf (findField k l) < 1 + sizeOf l := by
  cases h : findField k l with
  | none =>
    simp
    cases l with
    | nil => simp
    | cons hd tl =>
      simp
      try omega
  | some v =>
    have := findField_sizeOf h
    simp
    omega

/-- Appending an entry with a fresh key does not change lookups of other keys. -/
theorem findField_append_ne {k k' : String} {l : List (String × JsonValue)} {v : JsonValue}
    (h : k' ≠ k) : findField k' (l ++ [(k, v)]) = findField k' l := by
  induction l with
  | nil =>
    simp [findField]
    exact fun e => h e.symm
  | cons hd tl ih =>
    obtain ⟨k'', w⟩ := hd
    by_cases hk : k'' = k'
    · simp [findField, hk]
    · simp [findField, hk, ih]

@[simp] theorem ok_bind {α β : Type} (a : α) (f : α → Except DecodeError β) :
    (Except.ok a >>= f) = f a := rfl

@[simp] theorem error_bind {α β : Type} (e : DecodeError) (f : α → Except DecodeError β) :
    ((Except.error e : Except DecodeError α) >>= f) = .error e := rfl

@[simp] theorem map_ok {α β : Type} (a : α) (f : α → β) :
    (Except.ok a : Except DecodeError α).map f = .ok (f a) := rfl

@[simp] theorem map_error {α β : Type} (e : DecodeError) (f : α → β) :
    (Except.error e : Except DecodeError α).map f = .error e := rfl

/-! ## Primitive field codecs -/

/-- serde: a `bool` field accepts exactly a JSON boolean. -/
def decodeBool : JsonValue → Except DecodeError Bool
  | .bool b => .ok b
  | _ => .error (.typeMismatch "bool")

/-- serde: a `String` field accepts exactly a JSON string. -/
def decodeString : JsonValue → Except DecodeError String
  | .str s => .ok s
  | _ => .error (.typeMismatch "string")

/-- serde_json serializes a non-finite `f64` as `null`. -/
def encodeF64 : F64 → JsonValue
  | .finite q => .num q
  | _ => .null

/-- serde: an `f64` field accepts exactly a JSON number. -/
def decodeF64 : JsonValue → Except DecodeError F64
  | .num q => .ok (.finite q)
  | _ => .error (.typeMismatch "f64")

def encodeU32 (n : U32) : JsonValue := .num (n.val : Rat)

/-- serde: a `u32` field accepts an integral JSON number in `u32` range. -/
def decodeU32 : JsonValue → Except DecodeError U32
  | .num q =>
    if h : q.den = 1 ∧ 0 ≤ q.num ∧ q.num < 4294967296
      then .ok ⟨q.num.toNat, by omega⟩
      else .error (.typeMismatch "u32")
  | _ => .error (.typeMismatch "u32")

def encodeI64 (n : I64) : JsonValue := .num (n.val : Rat)

/-- serde: an `i64` field accepts an integral JSON number in `i64` range. -/
def decodeI64 : JsonValue → Except DecodeError I64
  | .num q =>
    if h : q.den = 1 ∧ -9223372036854775808 ≤ q.num ∧ q.num < 9223372036854775808
      then .ok ⟨q.num, h.2⟩
      else .error (.typeMismatch "i64")
  | _ => .error (.typeMismatch "i64")

/-- A `serde_json::Value` field is decoded as-is (used for the opaque
`Architecture`/`Placement`/`Predicate` blobs). -/
def decodeValue (j : JsonValue) : Except DecodeError JsonValue := .ok j

/-- Decode every element of a JSON array with the given element decoder,
preserving order (serde `Vec<T>` visitor). -/
def decodeElems {α : Type} (dec : JsonValue → Except DecodeError α) :
    List JsonValue → Except DecodeError (List α)
  | [] => .ok []
  | x :: xs => do
    let a ← dec x
    let rest ← decodeElems dec xs
    .ok (a :: rest)

/-- serde: a `Vec<T>` field accepts exactly a JSON array. -/
def decodeList {α : Type} (dec : JsonValue → Except DecodeError α) :
    JsonValue → Except DecodeError (List α)
  | .arr items => decodeElems dec items
  | _ => .error (.typeMismatch "sequence")

def encodeStrList (l : List String) : JsonValue := .arr (l.map .str)

def decodeStrList : JsonValue → Except DecodeError (List String) :=
  decodeList decodeString

/-- Required struct field: serde errors with `missing field` when absent. -/
def reqField {α : Type} (fields : List (String × JsonValue)) (k : String)
    (dec : JsonValue → Except DecodeError α) : Except DecodeError α :=
  match findField k fields with
  | none => .error (.missingField k)
  | some v => dec v

/-- `Option<T>` struct field: a missing key or an explicit `null` decodes to
`none`, never to a defaulted placeholder (serde's `Option` visitor). -/
def optField {α : Type} (fields : List (String × JsonValue)) (k : String)
    (dec : JsonValue → Except DecodeError α) : Except DecodeError (Option α) :=
  match findField k fields with
  | none => .ok none
  | some .null => .ok none
  | some v => (dec v).map some

/-- Encoding of a field carrying `skip_serializing_if = "Option::is_none"`:
the key is omitted entirely when the value is absent. -/
def optEntry {α : Type} (k : String) (enc : α → JsonValue) :
    Option α → List (String × JsonValue)
  | none => []
  | some v => [(k, enc v)]

/-! ## Shared value types (`src/pass/standard.rs`, attribute types) -/

/-- Rotation axes used during Euler angle reduction. -/
inductive RotationAxis where
  | Rx
  | Ry
  | Rz
deriving DecidableEq

def encodeRotationAxis : RotationAxis → JsonValue
  | .Rx => .str "Rx"
  | .Ry => .str "Ry"
  | .Rz => .str "Rz"

def decodeRotationAxis : JsonValue → Except DecodeError RotationAxis
  | .str "Rx" => .ok .Rx
  | .str "Ry" => .ok .Ry
  | .str "Rz" => .ok .Rz
  | .str s => .error (.unknownVariant s)
  | _ => .error (.typeMismatch "string")

/-- Target native two-qubit gate for optimisation passes. -/
inductive TargetTwoQubitGate where
  | CX
  | TK2
deriving DecidableEq

def encodeTargetTwoQubitGate : TargetTwoQubitGate → JsonValue
  | .CX => .str "CX"
  | .TK2 => .str "TK2"

def decodeTargetTwoQubitGate : JsonValue → Except DecodeError TargetTwoQubitGate
  | .str "CX" => .ok .CX
  | .str "TK2" => .ok .TK2
  | .str s => .error (.unknownVariant s)
  | _ => .error (.typeMismatch "string")

/-- Preferred CX configuration for gadget construction. -/
inductive CxConfig where
  | Snake
  | Tree
  | Star
deriving DecidableEq

def encodeCxConfig : CxConfig → JsonValue
  | .Snake => .str "Snake"
  | .Tree => .str "Tree"
  | .Star => .str "Star"

def decodeCxConfig : JsonValue → Except DecodeError CxConfig
  | .str "Snake" => .ok .Snake
  | .str "Tree" => .ok .Tree
  | .str "Star" => .ok .Star
  | .str s => .error (.unknownVariant s)
  | _ => .error (.typeMismatch "string")

/-- Strategy for synthesising Pauli gadgets. -/
inductive PauliSynthStrategy where
  | Individual
  | Pairwise
  | Sets
deriving DecidableEq

def encodePauliSynthStrategy : PauliSynthStrategy → JsonValue
  | .Individual => .str "Individual"
  | .Pairwise => .str "Pairwise"
  | .Sets => .str "Sets"

def decodePauliSynthStrategy : JsonValue → Except DecodeError PauliSynthStrategy
  | .str "Individual" => .ok .Individual
  | .str "Pairwise" => .ok .Pairwise
  | .str "Sets" => .ok .Sets
  | .str s => .error (.unknownVariant s)
  | _ => .error (.typeMismatch "string")

/-- Stub for a serialized architecture blob (`pub type Architecture =
serde_json::Value` in `src/pass.rs`). -/
abbrev Architecture := JsonValue

/-- Stub for a serialized placement blob (`pub type Placement =
serde_json::Value` in `src/pass.rs`). -/
abbrev Placement := JsonValue

/-- Stub for a serialized predicate blob (`pub type Predicate =
serde_json::Value` in `src/pass.rs`). -/
abbrev Predicate := JsonValue

/-- Modelled from the spec: `SerialCircuit` (defined outside the two pass
source files) is "an opaque recursively-serializable structure \[...\] this
core only nests/extracts it, never inspects its internals".  It is a Rust
struct with named fields, so on the wire it is always a JSON object; it is
modelled as an opaque object (a field list) passed through unchanged. -/
abbrev SerialCircuit := List (String × JsonValue)

def encodeSerialCircuit (c : SerialCircuit) : JsonValue := .obj c

/-- An opaque circuit is decoded from the JSON object it serializes as. -/
def decodeSerialCircuit : JsonValue → Except DecodeError SerialCircuit
  | .obj fields => .ok fields
  | _ => .error (.typeMismatch "struct SerialCircuit")

/-- Modelled from the spec: `ElementId` (defined in the crate's register
module, outside the two pass source files) is one of the "element
identifiers (qubit/bit references): opaque paired identifiers used only as
`QubitMapping` endpoints", so it is modelled as an opaque JSON value. -/
abbrev ElementId := JsonValue

/-- Mapping between qubits for renaming operations: a Rust tuple struct
`QubitMapping(pub ElementId, pub ElementId)`. -/
structure QubitMapping where
  fst : ElementId
  snd : ElementId

/-- serde serializes a two-field tuple struct as a two-element JSON array. -/
def encodeQubitMapping (m : QubitMapping) : JsonValue := .arr [m.fst, m.snd]

/-- serde deserializes a two-field tuple struct from exactly a two-element
JSON array (wrong length or wrong type is an error). -/
def decodeQubitMapping : JsonValue → Except DecodeError QubitMapping
  | .arr [a, b] => .ok ⟨a, b⟩
  | .arr _ => .error (.invalidLength 2)
  | _ => .error (.typeMismatch "tuple struct QubitMapping")

/-- Routing method descriptor. -/
structure RoutingMethod where
  name : String

def encodeRoutingMethod (m : RoutingMethod) : JsonValue := .obj [("name", .str m.name)]

def decodeRoutingMethod : JsonValue → Except DecodeError RoutingMethod
  | .obj fields => do
    let n ← reqField fields "name" decodeString
    .ok ⟨n⟩
  | _ => .error (.typeMismatch "struct RoutingMethod")

/-- Serialized routing configuration (`pub type RoutingConfig = Vec<RoutingMethod>`). -/
abbrev RoutingConfig := List RoutingMethod

def encodeRoutingConfig (c : RoutingConfig) : JsonValue := .arr (c.map encodeRoutingMethod)

def decodeRoutingConfig : JsonValue → Except DecodeError RoutingConfig :=
  decodeList decodeRoutingMethod

/-- Configuration for decomposing TK2 gates: three independently-optional
fidelities with renamed keys `CX`, `ZZMax`, `ZZPhase`. -/
structure DecomposeTk2Fidelities where
  cx : Option F64
  zz_max : Option F64
  zz_phase : Option F64

def encodeDecomposeTk2Fidelities (f : DecomposeTk2Fidelities) : JsonValue :=
  .obj (optEntry "CX" encodeF64 f.cx ++ optEntry "ZZMax" encodeF64 f.zz_max ++
    optEntry "ZZPhase" encodeF64 f.zz_phase)

def decodeDecomposeTk2Fidelities : JsonValue → Except DecodeError DecomposeTk2Fidelities
  | .obj fields => do
    let a ← optField fields "CX" decodeF64
    let b ← optField fields "ZZMax" decodeF64
    let c ← optField fields "ZZPhase" decodeF64
    .ok ⟨a, b, c⟩
  | _ => .error (.typeMismatch "struct DecomposeTk2Fidelities")

/-! ## Standard pass payload structs (`src/pass/standard.rs`)

Each struct's encoder produces its serde field list in declaration order
(`Option` fields omitted when `none`); each decoder reads the declared
fields from a field list, ignoring unknown entries, as serde's derived
struct visitors do. -/

/-- A pass that re-bases the circuit to a custom basis. -/
structure RebaseCustom where
  basis_allowed : List String
  basis_cx_replacement : SerialCircuit
  basis_tk1_replacement : String

def encodeRebaseCustom (s : RebaseCustom) : List (String × JsonValue) :=
  [("basis_allowed", encodeStrList s.basis_allowed),
   ("basis_cx_replacement", encodeSerialCircuit s.basis_cx_replacement),
   ("basis_tk1_replacement", .str s.basis_tk1_replacement)]

def decodeRebaseCustom (fields : List (String × JsonValue)) :
    Except DecodeError RebaseCustom := do
  let a ← reqField fields "basis_allowed" decodeStrList
  let b ← reqField fields "basis_cx_replacement" decodeSerialCircuit
  let c ← reqField fields "basis_tk1_replacement" decodeString
  .ok ⟨a, b, c⟩

/-- Automatically rebase to a given gate set. -/
structure AutoRebase where
  basis_allowed : List String
  allow_swaps : Bool

def encodeAutoRebase (s : AutoRebase) : List (String × JsonValue) :=
  [("basis_allowed", encodeStrList s.basis_allowed),
   ("allow_swaps", .bool s.allow_swaps)]

def decodeAutoRebase (fields : List (String × JsonValue)) :
    Except DecodeError AutoRebase := do
  let a ← reqField fields "basis_allowed" decodeStrList
  let b ← reqField fields "allow_swaps" decodeBool
  .ok ⟨a, b⟩

/-- Custom squashing configuration. -/
structure SquashCustom where
  basis_singleqs : List String
  basis_tk1_replacement : String
  always_squash_symbols : Bool

def encodeSquashCustom (s : SquashCustom) : List (String × JsonValue) :=
  [("basis_singleqs", encodeStrList s.basis_singleqs),
   ("basis_tk1_replacement", .str s.basis_tk1_replacement),
   ("always_squash_symbols", .bool s.always_squash_symbols)]

def decodeSquashCustom (fields : List (String × JsonValue)) :
    Except DecodeError SquashCustom := do
  let a ← reqField fields "basis_singleqs" decodeStrList
  let b ← reqField fields "basis_tk1_replacement" decodeString
  let c ← reqField fields "always_squash_symbols" decodeBool
  .ok ⟨a, b, c⟩

/-- Automatically squash single-qubit gates. -/
structure AutoSquash where
  basis_singleqs : List String

def encodeAutoSquash (s : AutoSquash) : List (String × JsonValue) :=
  [("basis_singleqs", encodeStrList s.basis_singleqs)]

def decodeAutoSquash (fields : List (String × JsonValue)) :
    Except DecodeError AutoSquash := do
  let a ← reqField fields "basis_singleqs" decodeStrList
  .ok ⟨a⟩

/-- Parameters for decomposing boxes.  The two `excluded_*` lists are plain
`Vec<String>` (required); only the two `included_*` lists are `Option`s
carrying `skip_serializing_if = "Option::is_none"`. -/
structure DecomposeBoxes where
  excluded_types : List String
  excluded_opgroups : List String
  included_types : Option (List String)
  included_opgroups : Option (List String)

def encodeDecomposeBoxes (s : DecomposeBoxes) : List (String × JsonValue) :=
  [("excluded_types", encodeStrList s.excluded_types),
   ("excluded_opgroups", encodeStrList s.excluded_opgroups)] ++
  optEntry "included_types" encodeStrList s.included_types ++
  optEntry "included_opgroups" encodeStrList s.included_opgroups

def decodeDecomposeBoxes (fields : List (String × JsonValue)) :
    Except DecodeError DecomposeBoxes := do
  let a ← reqField fields "excluded_types" decodeStrList
  let b ← reqField fields "excluded_opgroups" decodeStrList
  let c ← optField fields "included_types" decodeStrList
  let d ← optField fields "included_opgroups" decodeStrList
  .ok ⟨a, b, c, d⟩

/-- Configure the two-qubit peephole optimiser. -/
structure PeepholeOptimise2Q where
  allow_swaps : Bool

def encodePeepholeOptimise2Q (s : PeepholeOptimise2Q) : List (String × JsonValue) :=
  [("allow_swaps", .bool s.allow_swaps)]

def decodePeepholeOptimise2Q (fields : List (String × JsonValue)) :
    Except DecodeError PeepholeOptimise2Q := do
  let a ← reqField fields "allow_swaps" decodeBool
  .ok ⟨a⟩

/-- KAK decomposition configuration. -/
structure KakDecomposition where
  fidelity : F64
  allow_swaps : Bool
  target_2qb_gate : TargetTwoQubitGate

def encodeKakDecomposition (s : KakDecomposition) : List (String × JsonValue) :=
  [("fidelity", encodeF64 s.fidelity),
   ("allow_swaps", .bool s.allow_swaps),
   ("target_2qb_gate", encodeTargetTwoQubitGate s.target_2qb_gate)]

def decodeKakDecomposition (fields : List (String × JsonValue)) :
    Except DecodeError KakDecomposition := do
  let a ← reqField fields "fidelity" decodeF64
  let b ← reqField fields "allow_swaps" decodeBool
  let c ← reqField fields "target_2qb_gate" decodeTargetTwoQubitGate
  .ok ⟨a, b, c⟩

/-- Three-qubit squash configuration. -/
structure ThreeQubitSquash where
  allow_swaps : Bool

def encodeThreeQubitSquash (s : ThreeQubitSquash) : List (String × JsonValue) :=
  [("allow_swaps", .bool s.allow_swaps)]

def decodeThreeQubitSquash (fields : List (String × JsonValue)) :
    Except DecodeError ThreeQubitSquash := do
  let a ← reqField fields "allow_swaps" decodeBool
  .ok ⟨a⟩

/-- Full peephole optimisation configuration. -/
structure FullPeepholeOptimise where
  allow_swaps : Bool
  target_2qb_gate : TargetTwoQubitGate

def encodeFullPeepholeOptimise (s : FullPeepholeOptimise) : List (String × JsonValue) :=
  [("allow_swaps", .bool s.allow_swaps),
   ("target_2qb_gate", encodeTargetTwoQubitGate s.target_2qb_gate)]

def decodeFullPeepholeOptimise (fields : List (String × JsonValue)) :
    Except DecodeError FullPeepholeOptimise := do
  let a ← reqField fields "allow_swaps" decodeBool
  let b ← reqField fields "target_2qb_gate" decodeTargetTwoQubitGate
  .ok ⟨a, b⟩

/-- Compose Phase-Polynomial boxes configuration. -/
structure ComposePhasePolyBoxes where
  min_size : U32

def encodeComposePhasePolyBoxes (s : ComposePhasePolyBoxes) : List (String × JsonValue) :=
  [("min_size", encodeU32 s.min_size)]

def decodeComposePhasePolyBoxes (fields : List (String × JsonValue)) :
    Except DecodeError ComposePhasePolyBoxes := do
  let a ← reqField fields "min_size" decodeU32
  .ok ⟨a⟩

/-- Euler angle reduction configuration. -/
structure EulerAngleReduction where
  euler_p : RotationAxis
  euler_q : RotationAxis
  euler_strict : Bool

def encodeEulerAngleReduction (s : EulerAngleReduction) : List (String × JsonValue) :=
  [("euler_p", encodeRotationAxis s.euler_p),
   ("euler_q", encodeRotationAxis s.euler_q),
   ("euler_strict", .bool s.euler_strict)]

def decodeEulerAngleReduction (fields : List (String × JsonValue)) :
    Except DecodeError EulerAngleReduction := do
  let a ← reqField fields "euler_p" decodeRotationAxis
  let b ← reqField fields "euler_q" decodeRotationAxis
  let c ← reqField fields "euler_strict" decodeBool
  .ok ⟨a, b, c⟩

/-- Routing pass configuration. -/
structure RoutingPass where
  architecture : Architecture
  routing_config : RoutingConfig

def encodeRoutingPass (s : RoutingPass) : List (String × JsonValue) :=
  [("architecture", s.architecture),
   ("routing_config", encodeRoutingConfig s.routing_config)]

def decodeRoutingPass (fields : List (String × JsonValue)) :
    Except DecodeError RoutingPass := do
  let a ← reqField fields "architecture" decodeValue
  let b ← reqField fields "routing_config" decodeRoutingConfig
  .ok ⟨a, b⟩

/-- Custom routing pass configuration. -/
structure CustomRoutingPass where
  architecture : Architecture
  routing_config : RoutingConfig

def encodeCustomRoutingPass (s : CustomRoutingPass) : List (String × JsonValue) :=
  [("architecture", s.architecture),
   ("routing_config", encodeRoutingConfig s.routing_config)]

def decodeCustomRoutingPass (fields : List (String × JsonValue)) :
    Except DecodeError CustomRoutingPass := do
  let a ← reqField fields "architecture" decodeValue
  let b ← reqField fields "routing_config" decodeRoutingConfig
  .ok ⟨a, b⟩

/-- Placement pass configuration. -/
structure PlacementPass where
  placement : Placement

def encodePlacementPass (s : PlacementPass) : List (String × JsonValue) :=
  [("placement", s.placement)]

def decodePlacementPass (fields : List (String × JsonValue)) :
    Except DecodeError PlacementPass := do
  let a ← reqField fields "placement" decodeValue
  .ok ⟨a⟩

/-- Naive placement configuration. -/
structure NaivePlacementPass where
  architecture : Architecture

def encodeNaivePlacementPass (s : NaivePlacementPass) : List (String × JsonValue) :=
  [("architecture", s.architecture)]

def decodeNaivePlacementPass (fields : List (String × JsonValue)) :
    Except DecodeError NaivePlacementPass := do
  let a ← reqField fields "architecture" decodeValue
  .ok ⟨a⟩

/-- Renaming map for qubits. -/
structure RenameQubitsPass where
  qubit_map : List QubitMapping

def encodeRenameQubitsPass (s : RenameQubitsPass) : List (String × JsonValue) :=
  [("qubit_map", .arr (s.qubit_map.map encodeQubitMapping))]

def decodeRenameQubitsPass (fields : List (String × JsonValue)) :
    Except DecodeError RenameQubitsPass := do
  let a ← reqField fields "qubit_map" (decodeList decodeQubitMapping)
  .ok ⟨a⟩

/-- Clifford simplification configuration. -/
structure CliffordSimp where
  allow_swaps : Bool
  target_2qb_gate : TargetTwoQubitGate

def encodeCliffordSimp (s : CliffordSimp) : List (String × JsonValue) :=
  [("allow_swaps", .bool s.allow_swaps),
   ("target_2qb_gate", encodeTargetTwoQubitGate s.target_2qb_gate)]

def decodeCliffordSimp (fields : List (String × JsonValue)) :
    Except DecodeError CliffordSimp := do
  let a ← reqField fields "allow_swaps" decodeBool
  let b ← reqField fields "target_2qb_gate" decodeTargetTwoQubitGate
  .ok ⟨a, b⟩

/-- Decompose swaps into CXs. -/
structure DecomposeSwapsToCxs where
  architecture : Architecture
  directed : Bool

def encodeDecomposeSwapsToCxs (s : DecomposeSwapsToCxs) : List (String × JsonValue) :=
  [("architecture", s.architecture),
   ("directed", .bool s.directed)]

def decodeDecomposeSwapsToCxs (fields : List (String × JsonValue)) :
    Except DecodeError DecomposeSwapsToCxs := do
  let a ← reqField fields "architecture" decodeValue
  let b ← reqField fields "directed" decodeBool
  .ok ⟨a, b⟩

/-- Decompose swaps into custom circuits. -/
structure DecomposeSwapsToCircuit where
  swap_replacement : SerialCircuit

def encodeDecomposeSwapsToCircuit (s : DecomposeSwapsToCircuit) : List (String × JsonValue) :=
  [("swap_replacement", encodeSerialCircuit s.swap_replacement)]

def decodeDecomposeSwapsToCircuit (fields : List (String × JsonValue)) :
    Except DecodeError DecomposeSwapsToCircuit := do
  let a ← reqField fields "swap_replacement" decodeSerialCircuit
  .ok ⟨a⟩

/-- Phase gadget optimisation configuration. -/
structure OptimisePhaseGadgets where
  cx_config : CxConfig

def encodeOptimisePhaseGadgets (s : OptimisePhaseGadgets) : List (String × JsonValue) :=
  [("cx_config", encodeCxConfig s.cx_config)]

def decodeOptimisePhaseGadgets (fields : List (String × JsonValue)) :
    Except DecodeError OptimisePhaseGadgets := do
  let a ← reqField fields "cx_config" decodeCxConfig
  .ok ⟨a⟩

/-- Shared configuration for Pauli synthesis style passes (used by
`PauliSimp`, `PauliExponentials`, `GuidedPauliSimp` and `PauliSquash`). -/
structure PauliSynthesisConfig where
  pauli_synth_strat : PauliSynthStrategy
  cx_config : CxConfig

def encodePauliSynthesisConfig (s : PauliSynthesisConfig) : List (String × JsonValue) :=
  [("pauli_synth_strat", encodePauliSynthStrategy s.pauli_synth_strat),
   ("cx_config", encodeCxConfig s.cx_config)]

def decodePauliSynthesisConfig (fields : List (String × JsonValue)) :
    Except DecodeError PauliSynthesisConfig := do
  let a ← reqField fields "pauli_synth_strat" decodePauliSynthStrategy
  let b ← reqField fields "cx_config" decodeCxConfig
  .ok ⟨a, b⟩

/-- Simplify initial states configuration. -/
structure SimplifyInitial where
  allow_classical : Bool
  create_all_qubits : Bool
  x_circuit : Option SerialCircuit

def encodeSimplifyInitial (s : SimplifyInitial) : List (String × JsonValue) :=
  [("allow_classical", .bool s.allow_classical),
   ("create_all_qubits", .bool s.create_all_qubits)] ++
  optEntry "x_circuit" encodeSerialCircuit s.x_circuit

def decodeSimplifyInitial (fields : List (String × JsonValue)) :
    Except DecodeError SimplifyInitial := do
  let a ← reqField fields "allow_classical" decodeBool
  let b ← reqField fields "create_all_qubits" decodeBool
  let c ← optField fields "x_circuit" decodeSerialCircuit
  .ok ⟨a, b, c⟩

/-- Full mapping pass configuration. -/
structure FullMappingPass where
  architecture : Architecture
  placement : Placement
  routing_config : RoutingConfig

def encodeFullMappingPass (s : FullMappingPass) : List (String × JsonValue) :=
  [("architecture", s.architecture),
   ("placement", s.placement),
   ("routing_config", encodeRoutingConfig s.routing_config)]

def decodeFullMappingPass (fields : List (String × JsonValue)) :
    Except DecodeError FullMappingPass := do
  let a ← reqField fields "architecture" decodeValue
  let b ← reqField fields "placement" decodeValue
  let c ← reqField fields "routing_config" decodeRoutingConfig
  .ok ⟨a, b, c⟩

/-- Default mapping pass configuration. -/
structure DefaultMappingPass where
  architecture : Architecture
  delay_measures : Bool

def encodeDefaultMappingPass (s : DefaultMappingPass) : List (String × JsonValue) :=
  [("architecture", s.architecture),
   ("delay_measures", .bool s.delay_measures)]

def decodeDefaultMappingPass (fields : List (String × JsonValue)) :
    Except DecodeError DefaultMappingPass := do
  let a ← reqField fields "architecture" decodeValue
  let b ← reqField fields "delay_measures" decodeBool
  .ok ⟨a, b⟩

/-- CX-focused mapping configuration. -/
structure CxMappingPass where
  architecture : Architecture
  placement : Placement
  routing_config : RoutingConfig
  directed : Bool
  delay_measures : Bool

def encodeCxMappingPass (s : CxMappingPass) : List (String × JsonValue) :=
  [("architecture", s.architecture),
   ("placement", s.placement),
   ("routing_config", encodeRoutingConfig s.routing_config),
   ("directed", .bool s.directed),
   ("delay_measures", .bool s.delay_measures)]

def decodeCxMappingPass (fields : List (String × JsonValue)) :
    Except DecodeError CxMappingPass := do
  let a ← reqField fields "architecture" decodeValue
  let b ← reqField fields "placement" decodeValue
  let c ← reqField fields "routing_config" decodeRoutingConfig
  let d ← reqField fields "directed" decodeBool
  let e ← reqField fields "delay_measures" decodeBool
  .ok ⟨a, b, c, d, e⟩

/-- Pauli context simplification configuration. -/
structure ContextSimp where
  allow_classical : Bool
  x_circuit : SerialCircuit

def encodeContextSimp (s : ContextSimp) : List (String × JsonValue) :=
  [("allow_classical", .bool s.allow_classical),
   ("x_circuit", encodeSerialCircuit s.x_circuit)]

def decodeContextSimp (fields : List (String × JsonValue)) :
    Except DecodeError ContextSimp := do
  let a ← reqField fields "allow_classical" decodeBool
  let b ← reqField fields "x_circuit" decodeSerialCircuit
  .ok ⟨a, b⟩

/-- Decompose TK2 configuration. -/
structure DecomposeTk2 where
  fidelities : Option DecomposeTk2Fidelities

def encodeDecomposeTk2 (s : DecomposeTk2) : List (String × JsonValue) :=
  optEntry "fidelities" encodeDecomposeTk2Fidelities s.fidelities

def decodeDecomposeTk2 (fields : List (String × JsonValue)) :
    Except DecodeError DecomposeTk2 := do
  let a ← optField fields "fidelities" decodeDecomposeTk2Fidelities
  .ok ⟨a⟩

/-- Round angles configuration. -/
structure RoundAngles where
  n : I64
  only_zeros : Bool

def encodeRoundAngles (s : RoundAngles) : List (String × JsonValue) :=
  [("n", encodeI64 s.n),
   ("only_zeros", .bool s.only_zeros)]

def decodeRoundAngles (fields : List (String × JsonValue)) :
    Except DecodeError RoundAngles := do
  let a ← reqField fields "n" decodeI64
  let b ← reqField fields "only_zeros" decodeBool
  .ok ⟨a, b⟩

/-- Greedy Pauli simplification configuration: all heuristic quantities are
declared `f64` in the source even when conceptually integral. -/
structure GreedyPauliSimp where
  discount_rate : F64
  depth_weight : F64
  max_lookahead : F64
  max_tqe_candidates : F64
  seed : F64
  allow_zzphase : Bool
  thread_timeout : F64
  only_reduce : Bool
  trials : F64

def encodeGreedyPauliSimp (s : GreedyPauliSimp) : List (String × JsonValue) :=
  [("discount_rate", encodeF64 s.discount_rate),
   ("depth_weight", encodeF64 s.depth_weight),
   ("max_lookahead", encodeF64 s.max_lookahead),
   ("max_tqe_candidates", encodeF64 s.max_tqe_candidates),
   ("seed", encodeF64 s.seed),
   ("allow_zzphase", .bool s.allow_zzphase),
   ("thread_timeout", encodeF64 s.thread_timeout),
   ("only_reduce", .bool s.only_reduce),
   ("trials", encodeF64 s.trials)]

def decodeGreedyPauliSimp (fields : List (String × JsonValue)) :
    Except DecodeError GreedyPauliSimp := do
  let a ← reqField fields "discount_rate" decodeF64
  let b ← reqField fields "depth_weight" decodeF64
  let c ← reqField fields "max_lookahead" decodeF64
  let d ← reqField fields "max_tqe_candidates" decodeF64
  let e ← reqField fields "seed" decodeF64
  let f ← reqField fields "allow_zzphase" decodeBool
  let g ← reqField fields "thread_timeout" decodeF64
  let h ← reqField fields "only_reduce" decodeBool
  let i ← reqField fields "trials" decodeF64
  .ok ⟨a, b, c, d, e, f, g, h, i⟩

/-- Delay measures configuration. -/
structure DelayMeasures where
  allow_partial : Bool

def encodeDelayMeasures (s : DelayMeasures) : List (String × JsonValue) :=
  [("allow_partial", .bool s.allow_partial)]

def decodeDelayMeasures (fields : List (String × JsonValue)) :
    Except DecodeError DelayMeasures := do
  let a ← reqField fields "allow_partial" decodeBool
  .ok ⟨a⟩

/-- Flatten and relabel registers configuration. -/
structure FlattenRelabelRegistersPass where
  label : String
  relabel_classical_registers : Bool

def encodeFlattenRelabelRegistersPass (s : FlattenRelabelRegistersPass) :
    List (String × JsonValue) :=
  [("label", .str s.label),
   ("relabel_classical_registers", .bool s.relabel_classical_registers)]

def decodeFlattenRelabelRegistersPass (fields : List (String × JsonValue)) :
    Except DecodeError FlattenRelabelRegistersPass := do
  let a ← reqField fields "label" decodeString
  let b ← reqField fields "relabel_classical_registers" decodeBool
  .ok ⟨a, b⟩

/-! ## The `StandardPass` catalog (`src/pass/standard.rs`) -/

/-- A standard pass: serde internally-tagged with `tag = "name"`.  The enum is
`#[non_exhaustive]` in Rust (an API-evolution marker); it has no catch-all
variant, so serde's derived decoder fails on unknown `name` tags. -/
inductive StandardPass where
  | RebaseCustom (pass : RebaseCustom)
  | RebaseCustomViaTK2
  | AutoRebase (pass : AutoRebase)
  | SquashCustom (pass : SquashCustom)
  | AutoSquash (pass : AutoSquash)
  | CommuteThroughMultis
  | DecomposeArbitrarilyControlledGates
  | DecomposeBoxes (pass : DecomposeBoxes)
  | DecomposeMultiQubitsCX
  | DecomposeSingleQubitsTK1
  | PeepholeOptimise2Q (pass : PeepholeOptimise2Q)
  | RebaseTket
  | RebaseUFR
  | RemoveRedundancies
  | SynthesiseTK
  | SynthesiseTket
  | SynthesiseOQC
  | SquashTK1
  | SquashRzPhasedX
  | FlattenRegisters
  | DelayMeasures (pass : DelayMeasures)
  | ZZPhaseToRz
  | RemoveDiscarded
  | SimplifyMeasured
  | RemoveBarriers
  | RemovePhaseOps
  | DecomposeBridges
  | KAKDecomposition (pass : KakDecomposition)
  | ThreeQubitSquash (pass : ThreeQubitSquash)
  | FullPeepholeOptimise (pass : FullPeepholeOptimise)
  | ComposePhasePolyBoxes (pass : ComposePhasePolyBoxes)
  | EulerAngleReduction (pass : EulerAngleReduction)
  | RoutingPass (pass : RoutingPass)
  | CustomRoutingPass (pass : CustomRoutingPass)
  | PlacementPass (pass : PlacementPass)
  | NaivePlacementPass (pass : NaivePlacementPass)
  | RenameQubitsPass (pass : RenameQubitsPass)
  | CliffordSimp (pass : CliffordSimp)
  | DecomposeSwapsToCXs (pass : DecomposeSwapsToCxs)
  | DecomposeSwapsToCircuit (pass : DecomposeSwapsToCircuit)
  | OptimisePhaseGadgets (pass : OptimisePhaseGadgets)
  | OptimisePairwiseGadgets
  | PauliSimp (pass : PauliSynthesisConfig)
  | PauliExponentials (pass : PauliSynthesisConfig)
  | GuidedPauliSimp (pass : PauliSynthesisConfig)
  | SimplifyInitial (pass : SimplifyInitial)
  | FullMappingPass (pass : FullMappingPass)
  | DefaultMappingPass (pass : DefaultMappingPass)
  | CXMappingPass (pass : CxMappingPass)
  | PauliSquash (pass : PauliSynthesisConfig)
  | ContextSimp (pass : ContextSimp)
  | DecomposeTK2 (pass : DecomposeTk2)
  | CnXPairwiseDecomposition
  | RemoveImplicitQubitPermutation
  | NormaliseTK2
  | RoundAngles (pass : RoundAngles)
  | GreedyPauliSimp (pass : GreedyPauliSimp)
  | RxFromSX
  | FlattenRelabelRegistersPass (pass : FlattenRelabelRegistersPass)

/-- The closed list of catalog tag names appearing in the source enum, in
declaration order. -/
def standardPassNames : List String :=
  ["RebaseCustom", "RebaseCustomViaTK2", "AutoRebase", "SquashCustom", "AutoSquash",
   "CommuteThroughMultis", "DecomposeArbitrarilyControlledGates", "DecomposeBoxes",
   "DecomposeMultiQubitsCX", "DecomposeSingleQubitsTK1", "PeepholeOptimise2Q",
   "RebaseTket", "RebaseUFR", "RemoveRedundancies", "SynthesiseTK", "SynthesiseTket",
   "SynthesiseOQC", "SquashTK1", "SquashRzPhasedX", "FlattenRegisters", "DelayMeasures",
   "ZZPhaseToRz", "RemoveDiscarded", "SimplifyMeasured", "RemoveBarriers",
   "RemovePhaseOps", "DecomposeBridges", "KAKDecomposition", "ThreeQubitSquash",
   "FullPeepholeOptimise", "ComposePhasePolyBoxes", "EulerAngleReduction",
   "RoutingPass", "CustomRoutingPass", "PlacementPass", "NaivePlacementPass",
   "RenameQubitsPass", "CliffordSimp", "DecomposeSwapsToCXs", "DecomposeSwapsToCircuit",
   "OptimisePhaseGadgets", "OptimisePairwiseGadgets", "PauliSimp", "PauliExponentials",
   "GuidedPauliSimp", "SimplifyInitial", "FullMappingPass", "DefaultMappingPass",
   "CXMappingPass", "PauliSquash", "ContextSimp", "DecomposeTK2",
   "CnXPairwiseDecomposition", "RemoveImplicitQubitPermutation", "NormaliseTK2",
   "RoundAngles", "GreedyPauliSimp", "RxFromSX", "FlattenRelabelRegistersPass"]

/-- serde serialization of the internally-tagged `StandardPass`: the `name`
tag first, then the payload struct's fields flattened into the same object
(unit variants carry only the tag). -/
def encodeStandardPass : StandardPass → JsonValue
  | .RebaseCustom s => .obj (("name", .str "RebaseCustom") :: encodeRebaseCustom s)
  | .RebaseCustomViaTK2 => .obj [("name", .str "RebaseCustomViaTK2")]
  | .AutoRebase s => .obj (("name", .str "AutoRebase") :: encodeAutoRebase s)
  | .SquashCustom s => .obj (("name", .str "SquashCustom") :: encodeSquashCustom s)
  | .AutoSquash s => .obj (("name", .str "AutoSquash") :: encodeAutoSquash s)
  | .CommuteThroughMultis => .obj [("name", .str "CommuteThroughMultis")]
  | .DecomposeArbitrarilyControlledGates =>
    .obj [("name", .str "DecomposeArbitrarilyControlledGates")]
  | .DecomposeBoxes s => .obj (("name", .str "DecomposeBoxes") :: encodeDecomposeBoxes s)
  | .DecomposeMultiQubitsCX => .obj [("name", .str "DecomposeMultiQubitsCX")]
  | .DecomposeSingleQubitsTK1 => .obj [("name", .str "DecomposeSingleQubitsTK1")]
  | .PeepholeOptimise2Q s => .obj (("name", .str "PeepholeOptimise2Q") :: encodePeepholeOptimise2Q s)
  | .RebaseTket => .obj [("name", .str "RebaseTket")]
  | .RebaseUFR => .obj [("name", .str "RebaseUFR")]
  | .RemoveRedundancies => .obj [("name", .str "RemoveRedundancies")]
  | .SynthesiseTK => .obj [("name", .str "SynthesiseTK")]
  | .SynthesiseTket => .obj [("name", .str "SynthesiseTket")]
  | .SynthesiseOQC => .obj [("name", .str "SynthesiseOQC")]
  | .SquashTK1 => .obj [("name", .str "SquashTK1")]
  | .SquashRzPhasedX => .obj [("name", .str "SquashRzPhasedX")]
  | .FlattenRegisters => .obj [("name", .str "FlattenRegisters")]
  | .DelayMeasures s => .obj (("name", .str "DelayMeasures") :: encodeDelayMeasures s)
  | .ZZPhaseToRz => .obj [("name", .str "ZZPhaseToRz")]
  | .RemoveDiscarded => .obj [("name", .str "RemoveDiscarded")]
  | .SimplifyMeasured => .obj [("name", .str "SimplifyMeasured")]
  | .RemoveBarriers => .obj [("name", .str "RemoveBarriers")]
  | .RemovePhaseOps => .obj [("name", .str "RemovePhaseOps")]
  | .DecomposeBridges => .obj [("name", .str "DecomposeBridges")]
  | .KAKDecomposition s => .obj (("name", .str "KAKDecomposition") :: encodeKakDecomposition s)
  | .ThreeQubitSquash s => .obj (("name", .str "ThreeQubitSquash") :: encodeThreeQubitSquash s)
  | .FullPeepholeOptimise s =>
    .obj (("name", .str "FullPeepholeOptimise") :: encodeFullPeepholeOptimise s)
  | .ComposePhasePolyBoxes s =>
    .obj (("name", .str "ComposePhasePolyBoxes") :: encodeComposePhasePolyBoxes s)
  | .EulerAngleReduction s =>
    .obj (("name", .str "EulerAngleReduction") :: encodeEulerAngleReduction s)
  | .RoutingPass s => .obj (("name", .str "RoutingPass") :: encodeRoutingPass s)
  | .CustomRoutingPass s => .obj (("name", .str "CustomRoutingPass") :: encodeCustomRoutingPass s)
  | .PlacementPass s => .obj (("name", .str "PlacementPass") :: encodePlacementPass s)
  | .NaivePlacementPass s =>
    .obj (("name", .str "NaivePlacementPass") :: encodeNaivePlacementPass s)
  | .RenameQubitsPass s => .obj (("name", .str "RenameQubitsPass") :: encodeRenameQubitsPass s)
  | .CliffordSimp s => .obj (("name", .str "CliffordSimp") :: encodeCliffordSimp s)
  | .DecomposeSwapsToCXs s =>
    .obj (("name", .str "DecomposeSwapsToCXs") :: encodeDecomposeSwapsToCxs s)
  | .DecomposeSwapsToCircuit s =>
    .obj (("name", .str "DecomposeSwapsToCircuit") :: encodeDecomposeSwapsToCircuit s)
  | .OptimisePhaseGadgets s =>
    .obj (("name", .str "OptimisePhaseGadgets") :: encodeOptimisePhaseGadgets s)
  | .OptimisePairwiseGadgets => .obj [("name", .str "OptimisePairwiseGadgets")]
  | .PauliSimp s => .obj (("name", .str "PauliSimp") :: encodePauliSynthesisConfig s)
  | .PauliExponentials s => .obj (("name", .str "PauliExponentials") :: encodePauliSynthesisConfig s)
  | .GuidedPauliSimp s => .obj (("name", .str "GuidedPauliSimp") :: encodePauliSynthesisConfig s)
  | .SimplifyInitial s => .obj (("name", .str "SimplifyInitial") :: encodeSimplifyInitial s)
  | .FullMappingPass s => .obj (("name", .str "FullMappingPass") :: encodeFullMappingPass s)
  | .DefaultMappingPass s => .obj (("name", .str "DefaultMappingPass") :: encodeDefaultMappingPass s)
  | .CXMappingPass s => .obj (("name", .str "CXMappingPass") :: encodeCxMappingPass s)
  | .PauliSquash s => .obj (("name", .str "PauliSquash") :: encodePauliSynthesisConfig s)
  | .ContextSimp s => .obj (("name", .str "ContextSimp") :: encodeContextSimp s)
  | .DecomposeTK2 s => .obj (("name", .str "DecomposeTK2") :: encodeDecomposeTk2 s)
  | .CnXPairwiseDecomposition => .obj [("name", .str "CnXPairwiseDecomposition")]
  | .RemoveImplicitQubitPermutation => .obj [("name", .str "RemoveImplicitQubitPermutation")]
  | .NormaliseTK2 => .obj [("name", .str "NormaliseTK2")]
  | .RoundAngles s => .obj (("name", .str "RoundAngles") :: encodeRoundAngles s)
  | .GreedyPauliSimp s => .obj (("name", .str "GreedyPauliSimp") :: encodeGreedyPauliSimp s)
  | .RxFromSX => .obj [("name", .str "RxFromSX")]
  | .FlattenRelabelRegistersPass s =>
    .obj (("name", .str "FlattenRelabelRegistersPass") :: encodeFlattenRelabelRegistersPass s)

/-- serde deserialization of the internally-tagged `StandardPass`: read the
`name` tag, dispatch on the known variant names, and decode the variant's
payload struct from the remaining fields (unit variants ignore extra
content).  An unknown tag is an `unknown variant` error — the derived
decoder has no forward-compatibility placeholder. -/
def decodeStandardPass (j : JsonValue) : Except DecodeError StandardPass :=
  match j with
  | .obj fields =>
    match findField "name" fields with
    | none => .error (.missingField "name")
    | some (.str n) =>
      match n with
      | "RebaseCustom" => (decodeRebaseCustom fields).map .RebaseCustom
      | "RebaseCustomViaTK2" => .ok .RebaseCustomViaTK2
      | "AutoRebase" => (decodeAutoRebase fields).map .AutoRebase
      | "SquashCustom" => (decodeSquashCustom fields).map .SquashCustom
      | "AutoSquash" => (decodeAutoSquash fields).map .AutoSquash
      | "CommuteThroughMultis" => .ok .CommuteThroughMultis
      | "DecomposeArbitrarilyControlledGates" => .ok .DecomposeArbitrarilyControlledGates
      | "DecomposeBoxes" => (decodeDecomposeBoxes fields).map .DecomposeBoxes
      | "DecomposeMultiQubitsCX" => .ok .DecomposeMultiQubitsCX
      | "DecomposeSingleQubitsTK1" => .ok .DecomposeSingleQubitsTK1
      | "PeepholeOptimise2Q" => (decodePeepholeOptimise2Q fields).map .PeepholeOptimise2Q
      | "RebaseTket" => .ok .RebaseTket
      | "RebaseUFR" => .ok .RebaseUFR
      | "RemoveRedundancies" => .ok .RemoveRedundancies
      | "SynthesiseTK" => .ok .SynthesiseTK
      | "SynthesiseTket" => .ok .SynthesiseTket
      | "SynthesiseOQC" => .ok .SynthesiseOQC
      | "SquashTK1" => .ok .SquashTK1
      | "SquashRzPhasedX" => .ok .SquashRzPhasedX
      | "FlattenRegisters" => .ok .FlattenRegisters
      | "DelayMeasures" => (decodeDelayMeasures fields).map .DelayMeasures
      | "ZZPhaseToRz" => .ok .ZZPhaseToRz
      | "RemoveDiscarded" => .ok .RemoveDiscarded
      | "SimplifyMeasured" => .ok .SimplifyMeasured
      | "RemoveBarriers" => .ok .RemoveBarriers
      | "RemovePhaseOps" => .ok .RemovePhaseOps
      | "DecomposeBridges" => .ok .DecomposeBridges
      | "KAKDecomposition" => (decodeKakDecomposition fields).map .KAKDecomposition
      | "ThreeQubitSquash" => (decodeThreeQubitSquash fields).map .ThreeQubitSquash
      | "FullPeepholeOptimise" => (decodeFullPeepholeOptimise fields).map .FullPeepholeOptimise
      | "ComposePhasePolyBoxes" => (decodeComposePhasePolyBoxes fields).map .ComposePhasePolyBoxes
      | "EulerAngleReduction" => (decodeEulerAngleReduction fields).map .EulerAngleReduction
      | "RoutingPass" => (decodeRoutingPass fields).map .RoutingPass
      | "CustomRoutingPass" => (decodeCustomRoutingPass fields).map .CustomRoutingPass
      | "PlacementPass" => (decodePlacementPass fields).map .PlacementPass
      | "NaivePlacementPass" => (decodeNaivePlacementPass fields).map .NaivePlacementPass
      | "RenameQubitsPass" => (decodeRenameQubitsPass fields).map .RenameQubitsPass
      | "CliffordSimp" => (decodeCliffordSimp fields).map .CliffordSimp
      | "DecomposeSwapsToCXs" => (decodeDecomposeSwapsToCxs fields).map .DecomposeSwapsToCXs
      | "DecomposeSwapsToCircuit" =>
        (decodeDecomposeSwapsToCircuit fields).map .DecomposeSwapsToCircuit
      | "OptimisePhaseGadgets" => (decodeOptimisePhaseGadgets fields).map .OptimisePhaseGadgets
      | "OptimisePairwiseGadgets" => .ok .OptimisePairwiseGadgets
      | "PauliSimp" => (decodePauliSynthesisConfig fields).map .PauliSimp
      | "PauliExponentials" => (decodePauliSynthesisConfig fields).map .PauliExponentials
      | "GuidedPauliSimp" => (decodePauliSynthesisConfig fields).map .GuidedPauliSimp
      | "SimplifyInitial" => (decodeSimplifyInitial fields).map .SimplifyInitial
      | "FullMappingPass" => (decodeFullMappingPass fields).map .FullMappingPass
      | "DefaultMappingPass" => (decodeDefaultMappingPass fields).map .DefaultMappingPass
      | "CXMappingPass" => (decodeCxMappingPass fields).map .CXMappingPass
      | "PauliSquash" => (decodePauliSynthesisConfig fields).map .PauliSquash
      | "ContextSimp" => (decodeContextSimp fields).map .ContextSimp
      | "DecomposeTK2" => (decodeDecomposeTk2 fields).map .DecomposeTK2
      | "CnXPairwiseDecomposition" => .ok .CnXPairwiseDecomposition
      | "RemoveImplicitQubitPermutation" => .ok .RemoveImplicitQubitPermutation
      | "NormaliseTK2" => .ok .NormaliseTK2
      | "RoundAngles" => (decodeRoundAngles fields).map .RoundAngles
      | "GreedyPauliSimp" => (decodeGreedyPauliSimp fields).map .GreedyPauliSimp
      | "RxFromSX" => .ok .RxFromSX
      | "FlattenRelabelRegistersPass" =>
        (decodeFlattenRelabelRegistersPass fields).map .FlattenRelabelRegistersPass
      | _ => .error (.unknownVariant n)
    | some _ => .error (.typeMismatch "string")
  | _ => .error (.typeMismatch "map")

/-! ## The outer `BasePass` tree (`src/pass.rs`)

`BasePass` is serde-tagged with `tag = "pass_class"`, and each variant is a
struct variant with a single field `pass` renamed to the variant's own name,
so a document carries both the adjacent `pass_class` tag and a payload field
named after it.  The single-field wrapper structs `SequencePass`,
`RepeatPass`, `RepeatWithMetricPass` and `RepeatUntilSatisfiedPass` are
inlined into the constructors, with constructor arguments named after the
wrapper structs' fields. -/

inductive BasePass where
  /-- `StandardPass { pass: StandardPass }` -/
  | StandardPass (pass : StandardPass)
  /-- `SequencePass { pass: SequencePass { sequence: Vec<BasePass> } }` -/
  | SequencePass (sequence : List BasePass)
  /-- `RepeatPass { pass: RepeatPass { body: Box<BasePass> } }` -/
  | RepeatPass (body : BasePass)
  /-- `RepeatWithMetricPass { pass: RepeatWithMetricPass { body, metric: String } }` -/
  | RepeatWithMetricPass (body : BasePass) (metric : String)
  /-- `RepeatUntilSatisfiedPass { pass: RepeatUntilSatisfiedPass { body, predicate: Predicate } }` -/
  | RepeatUntilSatisfiedPass (body : BasePass) (predicate : Predicate)

/-- The five outer discriminant strings, in declaration order. -/
def basePassClassNames : List String :=
  ["StandardPass", "SequencePass", "RepeatPass", "RepeatWithMetricPass",
   "RepeatUntilSatisfiedPass"]

mutual

/-- serde serialization of `BasePass`: the `pass_class` tag plus the single
`pass` field renamed to the variant name — exactly two top-level entries. -/
def encodeBasePass : BasePass → JsonValue
  | .StandardPass sp =>
    .obj [("pass_class", .str "StandardPass"), ("StandardPass", encodeStandardPass sp)]
  | .SequencePass xs =>
    .obj [("pass_class", .str "SequencePass"),
          ("SequencePass", .obj [("sequence", .arr (encodePassList xs))])]
  | .RepeatPass b =>
    .obj [("pass_class", .str "RepeatPass"),
          ("RepeatPass", .obj [("body", encodeBasePass b)])]
  | .RepeatWithMetricPass b m =>
    .obj [("pass_class", .str "RepeatWithMetricPass"),
          ("RepeatWithMetricPass", .obj [("body", encodeBasePass b), ("metric", .str m)])]
  | .RepeatUntilSatisfiedPass b pred =>
    .obj [("pass_class", .str "RepeatUntilSatisfiedPass"),
          ("RepeatUntilSatisfiedPass", .obj [("body", encodeBasePass b), ("predicate", pred)])]
termination_by p => sizeOf p

/-- Element-wise serialization of a `Vec<BasePass>`, preserving order. -/
def encodePassList : List BasePass → List JsonValue
  | [] => []
  | x :: xs => encodeBasePass x :: encodePassList xs
termination_by l => sizeOf l

end

mutual

/-- serde deserialization of the internally-tagged `BasePass`: read the
`pass_class` tag, dispatch on the five variant names (anything else is an
`unknown variant` error — the outer union is closed), then decode the
variant's single field, which is renamed to the variant's own name, from
the same object; extra fields are ignored as serde's derived struct
visitors do, and a missing payload field is a `missing field` error. -/
def decodeBasePass : JsonValue → Except DecodeError BasePass
  | .obj fields =>
    match findField "pass_class" fields with
    | none => .error (.missingField "pass_class")
    | some (.str tag) =>
      match tag with
      | "StandardPass" =>
        match findField "StandardPass" fields with
        | none => .error (.missingField "StandardPass")
        | some payload => (decodeStandardPass payload).map .StandardPass
      | "SequencePass" => decodeSequencePayload (findField "SequencePass" fields)
      | "RepeatPass" => decodeRepeatPayload (findField "RepeatPass" fields)
      | "RepeatWithMetricPass" =>
        decodeRepeatWithMetricPayload (findField "RepeatWithMetricPass" fields)
      | "RepeatUntilSatisfiedPass" =>
        decodeRepeatUntilSatisfiedPayload (findField "RepeatUntilSatisfiedPass" fields)
      | _ => .error (.unknownVariant tag)
    | some _ => .error (.typeMismatch "string")
  | _ => .error (.typeMismatch "map")
termination_by j => sizeOf j
decreasing_by
  all_goals
    have := findField_opt_sizeOf (k := "pass_class") (l := fields)
    all_goals
      first
      | (have e := findField_opt_sizeOf (k := "SequencePass") (l := fields); simp at e ⊢; omega)
      | (have e := findField_opt_sizeOf (k := "RepeatPass") (l := fields); simp at e ⊢; omega)
      | (have e := findField_opt_sizeOf (k := "RepeatWithMetricPass") (l := fields)
         simp at e ⊢; omega)
      | (have e := findField_opt_sizeOf (k := "RepeatUntilSatisfiedPass") (l := fields)
         simp at e ⊢; omega)

/-- The `SequencePass` struct-variant payload (the value of the
`"SequencePass"` field): an object with a `sequence` array of passes. -/
def decodeSequencePayload : Option JsonValue → Except DecodeError BasePass
  | some (.obj pf) =>
    match h2 : findField "sequence" pf with
    | some (.arr items) => (decodePassList items).map .SequencePass
    | some _ => .error (.typeMismatch "sequence")
    | none => .error (.missingField "sequence")
  | some _ => .error (.typeMismatch "struct SequencePass")
  | none => .error (.missingField "SequencePass")
termination_by o => sizeOf o
decreasing_by
  · have e2 := findField_sizeOf h2
    simp at e2 ⊢
    omega

/-- The `RepeatPass` struct-variant payload: an object with a `body` pass. -/
def decodeRepeatPayload : Option JsonValue → Except DecodeError BasePass
  | some (.obj pf) =>
    match h2 : findField "body" pf with
    | some bodyJ => (decodeBasePass bodyJ).map .RepeatPass
    | none => .error (.missingField "body")
  | some _ => .error (.typeMismatch "struct RepeatPass")
  | none => .error (.missingField "RepeatPass")
termination_by o => sizeOf o
decreasing_by
  · have e2 := findField_sizeOf h2
    simp at e2 ⊢
    omega

/-- The `RepeatWithMetricPass` struct-variant payload: an object with a
`body` pass and a `metric` string. -/
def decodeRepeatWithMetricPayload : Option JsonValue → Except DecodeError BasePass
  | some (.obj pf) =>
    match h2 : findField "body" pf with
    | some bodyJ =>
      match findField "metric" pf with
      | some (.str m) => (decodeBasePass bodyJ).map (fun b => .RepeatWithMetricPass b m)
      | some _ => .error (.typeMismatch "string")
      | none => .error (.missingField "metric")
    | none => .error (.missingField "body")
  | some _ => .error (.typeMismatch "struct RepeatWithMetricPass")
  | none => .error (.missingField "RepeatWithMetricPass")
termination_by o => sizeOf o
decreasing_by
  · have e2 := findField_sizeOf h2
    simp at e2 ⊢
    omega

/-- The `RepeatUntilSatisfiedPass` struct-variant payload: an object with a
`body` pass and an opaque `predicate` value. -/
def decodeRepeatUntilSatisfiedPayload : Option JsonValue → Except DecodeError BasePass
  | some (.obj pf) =>
    match h2 : findField "body" pf with
    | some bodyJ =>
      match findField "predicate" pf with
      | some pred => (decodeBasePass bodyJ).map (fun b => .RepeatUntilSatisfiedPass b pred)
      | none => .error (.missingField "predicate")
    | none => .error (.missingField "body")
  | some _ => .error (.typeMismatch "struct RepeatUntilSatisfiedPass")
  | none => .error (.missingField "RepeatUntilSatisfiedPass")
termination_by o => sizeOf o
decreasing_by
  · have e2 := findField_sizeOf h2
    simp at e2 ⊢
    omega

/-- Element-wise deserialization of a `Vec<BasePass>`, preserving order. -/
def decodePassList : List JsonValue → Except DecodeError (List BasePass)
  | [] => .ok []
  | x :: xs => do
    let p ← decodeBasePass x
    let ps ← decodePassList xs
    .ok (p :: ps)
termination_by l => sizeOf l
decreasing_by
  · simp
    omega
  · simp

end

/-! ## Finiteness of the floating-point payload fields -/

/-- All `f64` fields of a `StandardPass` hold finite floats.  (`f64` fields
occur only in `KAKDecomposition`, `GreedyPauliSimp` and the optional
`DecomposeTK2` fidelities.) -/
def standardPassFinite : StandardPass → Bool
  | .KAKDecomposition s => s.fidelity.isFinite
  | .GreedyPauliSimp s =>
    s.discount_rate.isFinite && s.depth_weight.isFinite && s.max_lookahead.isFinite &&
    s.max_tqe_candidates.isFinite && s.seed.isFinite && s.thread_timeout.isFinite &&
    s.trials.isFinite
  | .DecomposeTK2 s =>
    s.fidelities.all fun f =>
      (f.cx.all F64.isFinite) && (f.zz_max.all F64.isFinite) && (f.zz_phase.all F64.isFinite)
  | _ => true

mutual

/-- All `f64` fields reachable in a `BasePass` tree hold finite floats. -/
def basePassFinite : BasePass → Bool
  | .StandardPass sp => standardPassFinite sp
  | .SequencePass xs => passListFinite xs
  | .RepeatPass b => basePassFinite b
  | .RepeatWithMetricPass b _ => basePassFinite b
  | .RepeatUntilSatisfiedPass b _ => basePassFinite b
termination_by p => sizeOf p

def passListFinite : List BasePass → Bool
  | [] => true
  | x :: xs => basePassFinite x && passListFinite xs
termination_by l => sizeOf l

end

/-! ## Round-trip lemmas for the primitive codecs -/

@[simp] theorem decodeBool_bool (b : Bool) : decodeBool (.bool b) = .ok b := rfl

@[simp] theorem decodeString_str (s : String) : decodeString (.str s) = .ok s := rfl

@[simp] theorem decodeValue_ok (j : JsonValue) : decodeValue j = .ok j := rfl

theorem decodeF64_encodeF64 {f : F64} (h : f.isFinite = true) :
    decodeF64 (encodeF64 f) = .ok f := by
  cases f <;> simp_all [F64.isFinite, encodeF64, decodeF64]

@[simp] theorem decodeU32_encodeU32 (n : U32) : decodeU32 (encodeU32 n) = .ok n := by
  obtain ⟨v, hv⟩ := n
  have hden : ((v : ℚ)).den = 1 := Rat.den_natCast v
  have hnum : ((v : ℚ)).num = (v : ℤ) := Rat.num_natCast v
  simp [encodeU32, decodeU32, hden, hnum]
  simp [hv]

@[simp] theorem decodeI64_encodeI64 (n : I64) : decodeI64 (encodeI64 n) = .ok n := by
  obtain ⟨v, hv⟩ := n
  have hden : ((v : ℚ)).den = 1 := Rat.den_intCast v
  have hnum : ((v : ℚ)).num = v := Rat.num_intCast v
  simp [encodeI64, decodeI64, hden, hnum]
  simp [hv.1, hv.2]

theorem decodeElems_map {α : Type} {dec : JsonValue → Except DecodeError α}
    {enc : α → JsonValue} (l : List α) (h : ∀ a ∈ l, dec (enc a) = .ok a) :
    decodeElems dec (l.map enc) = .ok l := by
  induction l with
  | nil => simp [decodeElems]
  | cons x xs ih =>
    have hx := h x (by simp)
    have hxs := ih fun a ha => h a (by simp [ha])
    simp [decodeElems, hx, hxs]

@[simp] theorem decodeStrList_arr_map (l : List String) :
    decodeStrList (.arr (l.map .str)) = .ok l := by
  simp [decodeStrList, decodeList]
  exact decodeElems_map l fun a _ => rfl

@[simp] theorem decodeStrList_encodeStrList (l : List String) :
    decodeStrList (encodeStrList l) = .ok l := decodeStrList_arr_map l

@[simp] theorem decodeRotationAxis_encodeRotationAxis (a : RotationAxis) :
    decodeRotationAxis (encodeRotationAxis a) = .ok a := by
  cases a <;> rfl

@[simp] theorem decodeTargetTwoQubitGate_encodeTargetTwoQubitGate (g : TargetTwoQubitGate) :
    decodeTargetTwoQubitGate (encodeTargetTwoQubitGate g) = .ok g := by
  cases g <;> rfl

@[simp] theorem decodeCxConfig_encodeCxConfig (c : CxConfig) :
    decodeCxConfig (encodeCxConfig c) = .ok c := by
  cases c <;> rfl

@[simp] theorem decodePauliSynthStrategy_encodePauliSynthStrategy (s : PauliSynthStrategy) :
    decodePauliSynthStrategy (encodePauliSynthStrategy s) = .ok s := by
  cases s <;> rfl

@[simp] theorem decodeQubitMapping_encodeQubitMapping (m : QubitMapping) :
    decodeQubitMapping (encodeQubitMapping m) = .ok m := rfl

@[simp] theorem decodeRoutingMethod_encodeRoutingMethod (m : RoutingMethod) :
    decodeRoutingMethod (encodeRoutingMethod m) = .ok m := rfl

@[simp] theorem decodeRoutingConfig_arr_map (c : RoutingConfig) :
    decodeRoutingConfig (.arr (c.map encodeRoutingMethod)) = .ok c := by
  simp [decodeRoutingConfig, decodeList]
  exact decodeElems_map c fun a _ => rfl

@[simp] theorem decodeRoutingConfig_encodeRoutingConfig (c : RoutingConfig) :
    decodeRoutingConfig (encodeRoutingConfig c) = .ok c := decodeRoutingConfig_arr_map c

@[simp] theorem decodeList_qubitMappings (l : List QubitMapping) :
    decodeList decodeQubitMapping (.arr (l.map encodeQubitMapping)) = .ok l := by
  simp [decodeList]
  exact decodeElems_map l fun a _ => rfl

/-! ## Round-trip lemmas for the payload structs

Each lemma shows that decoding the struct's encoded field list — prefixed by
the `name` tag entry, as it appears inside an encoded `StandardPass` object —
recovers the struct. -/

theorem F64.eq_finite {f : F64} (h : f.isFinite = true) : ∃ r, f = .finite r := by
  cases f <;> simp_all [F64.isFinite]

theorem decodeRebaseCustom_encode (v : JsonValue) (s : RebaseCustom) :
    decodeRebaseCustom (("name", v) :: encodeRebaseCustom s) = .ok s := by
  simp [decodeRebaseCustom, encodeRebaseCustom, reqField, findField,
    encodeSerialCircuit, decodeSerialCircuit]

theorem decodeAutoRebase_encode (v : JsonValue) (s : AutoRebase) :
    decodeAutoRebase (("name", v) :: encodeAutoRebase s) = .ok s := by
  simp [decodeAutoRebase, encodeAutoRebase, reqField, findField]

theorem decodeSquashCustom_encode (v : JsonValue) (s : SquashCustom) :
    decodeSquashCustom (("name", v) :: encodeSquashCustom s) = .ok s := by
  simp [decodeSquashCustom, encodeSquashCustom, reqField, findField]

theorem decodeAutoSquash_encode (v : JsonValue) (s : AutoSquash) :
    decodeAutoSquash (("name", v) :: encodeAutoSquash s) = .ok s := by
  simp [decodeAutoSquash, encodeAutoSquash, reqField, findField]

theorem decodeDecomposeBoxes_encode (v : JsonValue) (s : DecomposeBoxes) :
    decodeDecomposeBoxes (("name", v) :: encodeDecomposeBoxes s) = .ok s := by
  obtain ⟨a, b, c, d⟩ := s
  cases c <;> cases d <;>
    simp [decodeDecomposeBoxes, encodeDecomposeBoxes, reqField, optField, optEntry,
      findField, encodeStrList]

theorem decodePeepholeOptimise2Q_encode (v : JsonValue) (s : PeepholeOptimise2Q) :
    decodePeepholeOptimise2Q (("name", v) :: encodePeepholeOptimise2Q s) = .ok s := by
  simp [decodePeepholeOptimise2Q, encodePeepholeOptimise2Q, reqField, findField]

theorem decodeKakDecomposition_encode (v : JsonValue) (s : KakDecomposition)
    (h : s.fidelity.isFinite = true) :
    decodeKakDecomposition (("name", v) :: encodeKakDecomposition s) = .ok s := by
  obtain ⟨f, a, t⟩ := s
  obtain ⟨r, rfl⟩ := F64.eq_finite h
  simp [decodeKakDecomposition, encodeKakDecomposition, reqField, findField,
    encodeF64, decodeF64]

theorem decodeThreeQubitSquash_encode (v : JsonValue) (s : ThreeQubitSquash) :
    decodeThreeQubitSquash (("name", v) :: encodeThreeQubitSquash s) = .ok s := by
  simp [decodeThreeQubitSquash, encodeThreeQubitSquash, reqField, findField]

theorem decodeFullPeepholeOptimise_encode (v : JsonValue) (s : FullPeepholeOptimise) :
    decodeFullPeepholeOptimise (("name", v) :: encodeFullPeepholeOptimise s) = .ok s := by
  simp [decodeFullPeepholeOptimise, encodeFullPeepholeOptimise, reqField, findField]

theorem decodeComposePhasePolyBoxes_encode (v : JsonValue) (s : ComposePhasePolyBoxes) :
    decodeComposePhasePolyBoxes (("name", v) :: encodeComposePhasePolyBoxes s) = .ok s := by
  simp [decodeComposePhasePolyBoxes, encodeComposePhasePolyBoxes, reqField, findField]

theorem decodeEulerAngleReduction_encode (v : JsonValue) (s : EulerAngleReduction) :
    decodeEulerAngleReduction (("name", v) :: encodeEulerAngleReduction s) = .ok s := by
  simp [decodeEulerAngleReduction, encodeEulerAngleReduction, reqField, findField]

theorem decodeRoutingPass_encode (v : JsonValue) (s : RoutingPass) :
    decodeRoutingPass (("name", v) :: encodeRoutingPass s) = .ok s := by
  simp [decodeRoutingPass, encodeRoutingPass, reqField, findField, encodeRoutingConfig]

theorem decodeCustomRoutingPass_encode (v : JsonValue) (s : CustomRoutingPass) :
    decodeCustomRoutingPass (("name", v) :: encodeCustomRoutingPass s) = .ok s := by
  simp [decodeCustomRoutingPass, encodeCustomRoutingPass, reqField, findField,
    encodeRoutingConfig]

theorem decodePlacementPass_encode (v : JsonValue) (s : PlacementPass) :
    decodePlacementPass (("name", v) :: encodePlacementPass s) = .ok s := by
  simp [decodePlacementPass, encodePlacementPass, reqField, findField]

theorem decodeNaivePlacementPass_encode (v : JsonValue) (s : NaivePlacementPass) :
    decodeNaivePlacementPass (("name", v) :: encodeNaivePlacementPass s) = .ok s := by
  simp [decodeNaivePlacementPass, encodeNaivePlacementPass, reqField, findField]

theorem decodeRenameQubitsPass_encode (v : JsonValue) (s : RenameQubitsPass) :
    decodeRenameQubitsPass (("name", v) :: encodeRenameQubitsPass s) = .ok s := by
  simp [decodeRenameQubitsPass, encodeRenameQubitsPass, reqField, findField]

theorem decodeCliffordSimp_encode (v : JsonValue) (s : CliffordSimp) :
    decodeCliffordSimp (("name", v) :: encodeCliffordSimp s) = .ok s := by
  simp [decodeCliffordSimp, encodeCliffordSimp, reqField, findField]

theorem decodeDecomposeSwapsToCxs_encode (v : JsonValue) (s : DecomposeSwapsToCxs) :
    decodeDecomposeSwapsToCxs (("name", v) :: encodeDecomposeSwapsToCxs s) = .ok s := by
  simp [decodeDecomposeSwapsToCxs, encodeDecomposeSwapsToCxs, reqField, findField]

theorem decodeDecomposeSwapsToCircuit_encode (v : JsonValue) (s : DecomposeSwapsToCircuit) :
    decodeDecomposeSwapsToCircuit (("name", v) :: encodeDecomposeSwapsToCircuit s) = .ok s := by
  simp [decodeDecomposeSwapsToCircuit, encodeDecomposeSwapsToCircuit, reqField, findField,
    encodeSerialCircuit, decodeSerialCircuit]

theorem decodeOptimisePhaseGadgets_encode (v : JsonValue) (s : OptimisePhaseGadgets) :
    decodeOptimisePhaseGadgets (("name", v) :: encodeOptimisePhaseGadgets s) = .ok s := by
  simp [decodeOptimisePhaseGadgets, encodeOptimisePhaseGadgets, reqField, findField]

theorem decodePauliSynthesisConfig_encode (v : JsonValue) (s : PauliSynthesisConfig) :
    decodePauliSynthesisConfig (("name", v) :: encodePauliSynthesisConfig s) = .ok s := by
  simp [decodePauliSynthesisConfig, encodePauliSynthesisConfig, reqField, findField]

theorem decodeSimplifyInitial_encode (v : JsonValue) (s : SimplifyInitial) :
    decodeSimplifyInitial (("name", v) :: encodeSimplifyInitial s) = .ok s := by
  obtain ⟨a, b, c⟩ := s
  cases c <;>
    simp [decodeSimplifyInitial, encodeSimplifyInitial, reqField, optField, optEntry,
      findField, encodeSerialCircuit, decodeSerialCircuit]

theorem decodeFullMappingPass_encode (v : JsonValue) (s : FullMappingPass) :
    decodeFullMappingPass (("name", v) :: encodeFullMappingPass s) = .ok s := by
  simp [decodeFullMappingPass, encodeFullMappingPass, reqField, findField,
    encodeRoutingConfig]

theorem decodeDefaultMappingPass_encode (v : JsonValue) (s : DefaultMappingPass) :
    decodeDefaultMappingPass (("name", v) :: encodeDefaultMappingPass s) = .ok s := by
  simp [decodeDefaultMappingPass, encodeDefaultMappingPass, reqField, findField]

theorem decodeCxMappingPass_encode (v : JsonValue) (s : CxMappingPass) :
    decodeCxMappingPass (("name", v) :: encodeCxMappingPass s) = .ok s := by
  simp [decodeCxMappingPass, encodeCxMappingPass, reqField, findField, encodeRoutingConfig]

theorem decodeContextSimp_encode (v : JsonValue) (s : ContextSimp) :
    decodeContextSimp (("name", v) :: encodeContextSimp s) = .ok s := by
  simp [decodeContextSimp, encodeContextSimp, reqField, findField,
    encodeSerialCircuit, decodeSerialCircuit]

theorem decodeDecomposeTk2_encode (v : JsonValue) (s : DecomposeTk2)
    (h : (s.fidelities.all fun f => (f.cx.all F64.isFinite) && (f.zz_max.all F64.isFinite) &&
      (f.zz_phase.all F64.isFinite)) = true) :
    decodeDecomposeTk2 (("name", v) :: encodeDecomposeTk2 s) = .ok s := by
  obtain ⟨fid⟩ := s
  cases fid with
  | none =>
    simp [decodeDecomposeTk2, encodeDecomposeTk2, optField, optEntry, findField]
  | some f =>
    obtain ⟨a, b, c⟩ := f
    simp only [Option.all, Bool.and_eq_true] at h
    obtain ⟨⟨h1, h2⟩, h3⟩ := h
    cases a <;> cases b <;> cases c <;>
    · simp_all [Option.all]
      try obtain ⟨r1, rfl⟩ := F64.eq_finite h1
      try obtain ⟨r2, rfl⟩ := F64.eq_finite h2
      try obtain ⟨r3, rfl⟩ := F64.eq_finite h3
      simp [decodeDecomposeTk2, encodeDecomposeTk2, decodeDecomposeTk2Fidelities,
        encodeDecomposeTk2Fidelities, optField, optEntry, findField, encodeF64, decodeF64]

theorem decodeRoundAngles_encode (v : JsonValue) (s : RoundAngles) :
    decodeRoundAngles (("name", v) :: encodeRoundAngles s) = .ok s := by
  simp [decodeRoundAngles, encodeRoundAngles, reqField, findField]

theorem decodeGreedyPauliSimp_encode (v : JsonValue) (s : GreedyPauliSimp)
    (h1 : s.discount_rate.isFinite = true) (h2 : s.depth_weight.isFinite = true)
    (h3 : s.max_lookahead.isFinite = true) (h4 : s.max_tqe_candidates.isFinite = true)
    (h5 : s.seed.isFinite = true) (h6 : s.thread_timeout.isFinite = true)
    (h7 : s.trials.isFinite = true) :
    decodeGreedyPauliSimp (("name", v) :: encodeGreedyPauliSimp s) = .ok s := by
  obtain ⟨f1, f2, f3, f4, f5, b1, f6, b2, f7⟩ := s
  obtain ⟨r1, rfl⟩ := F64.eq_finite h1
  obtain ⟨r2, rfl⟩ := F64.eq_finite h2
  obtain ⟨r3, rfl⟩ := F64.eq_finite h3
  obtain ⟨r4, rfl⟩ := F64.eq_finite h4
  obtain ⟨r5, rfl⟩ := F64.eq_finite h5
  obtain ⟨r6, rfl⟩ := F64.eq_finite h6
  obtain ⟨r7, rfl⟩ := F64.eq_finite h7
  simp [decodeGreedyPauliSimp, encodeGreedyPauliSimp, reqField, findField,
    encodeF64, decodeF64]

theorem decodeDelayMeasures_encode (v : JsonValue) (s : DelayMeasures) :
    decodeDelayMeasures (("name", v) :: encodeDelayMeasures s) = .ok s := by
  simp [decodeDelayMeasures, encodeDelayMeasures, reqField, findField]

theorem decodeFlattenRelabelRegistersPass_encode (v : JsonValue) (s : FlattenRelabelRegistersPass) :
    decodeFlattenRelabelRegistersPass
      (("name", v) :: encodeFlattenRelabelRegistersPass s) = .ok s := by
  simp [decodeFlattenRelabelRegistersPass, encodeFlattenRelabelRegistersPass, reqField, findField]

set_option maxHeartbeats 16000000 in
/-- Decoding an encoded `StandardPass` recovers it, provided its `f64` fields
are finite (non-finite floats serialize as `null` and cannot be decoded). -/
theorem decodeStandardPass_encode (sp : StandardPass) (h : standardPassFinite sp = true) :
    decodeStandardPass (encodeStandardPass sp) = .ok sp := by
  cases sp with
  | RebaseCustom s =>
    simp [decodeStandardPass, encodeStandardPass, findField, decodeRebaseCustom_encode]
  | AutoRebase s =>
    simp [decodeStandardPass, encodeStandardPass, findField, decodeAutoRebase_encode]
  | SquashCustom s =>
    simp [decodeStandardPass, encodeStandardPass, findField, decodeSquashCustom_encode]
  | AutoSquash s =>
    simp [decodeStandardPass, encodeStandardPass, findField, decodeAutoSquash_encode]
  | DecomposeBoxes s =>
    simp [decodeStandardPass, encodeStandardPass, findField, decodeDecomposeBoxes_encode]
  | PeepholeOptimise2Q s =>
    simp [decodeStandardPass, encodeStandardPass, findField, decodePeepholeOptimise2Q_encode]
  | DelayMeasures s =>
    simp [decodeStandardPass, encodeStandardPass, findField, decodeDelayMeasures_encode]
  | KAKDecomposition s =>
    replace h : s.fidelity.isFinite = true := h
    simp [decodeStandardPass, encodeStandardPass, findField, decodeKakDecomposition_encode _ _ h]
  | ThreeQubitSquash s =>
    simp [decodeStandardPass, encodeStandardPass, findField, decodeThreeQubitSquash_encode]
  | FullPeepholeOptimise s =>
    simp [decodeStandardPass, encodeStandardPass, findField, decodeFullPeepholeOptimise_encode]
  | ComposePhasePolyBoxes s =>
    simp [decodeStandardPass, encodeStandardPass, findField, decodeComposePhasePolyBoxes_encode]
  | EulerAngleReduction s =>
    simp [decodeStandardPass, encodeStandardPass, findField, decodeEulerAngleReduction_encode]
  | RoutingPass s =>
    simp [decodeStandardPass, encodeStandardPass, findField, decodeRoutingPass_encode]
  | CustomRoutingPass s =>
    simp [decodeStandardPass, encodeStandardPass, findField, decodeCustomRoutingPass_encode]
  | PlacementPass s =>
    simp [decodeStandardPass, encodeStandardPass, findField, decodePlacementPass_encode]
  | NaivePlacementPass s =>
    simp [decodeStandardPass, encodeStandardPass, findField, decodeNaivePlacementPass_encode]
  | RenameQubitsPass s =>
    simp [decodeStandardPass, encodeStandardPass, findField, decodeRenameQubitsPass_encode]
  | CliffordSimp s =>
    simp [decodeStandardPass, encodeStandardPass, findField, decodeCliffordSimp_encode]
  | DecomposeSwapsToCXs s =>
    simp [decodeStandardPass, encodeStandardPass, findField, decodeDecomposeSwapsToCxs_encode]
  | DecomposeSwapsToCircuit s =>
    simp [decodeStandardPass, encodeStandardPass, findField, decodeDecomposeSwapsToCircuit_encode]
  | OptimisePhaseGadgets s =>
    simp [decodeStandardPass, encodeStandardPass, findField, decodeOptimisePhaseGadgets_encode]
  | PauliSimp s =>
    simp [decodeStandardPass, encodeStandardPass, findField, decodePauliSynthesisConfig_encode]
  | PauliExponentials s =>
    simp [decodeStandardPass, encodeStandardPass, findField, decodePauliSynthesisConfig_encode]
  | GuidedPauliSimp s =>
    simp [decodeStandardPass, encodeStandardPass, findField, decodePauliSynthesisConfig_encode]
  | SimplifyInitial s =>
    simp [decodeStandardPass, encodeStandardPass, findField, decodeSimplifyInitial_encode]
  | FullMappingPass s =>
    simp [decodeStandardPass, encodeStandardPass, findField, decodeFullMappingPass_encode]
  | DefaultMappingPass s =>
    simp [decodeStandardPass, encodeStandardPass, findField, decodeDefaultMappingPass_encode]
  | CXMappingPass s =>
    simp [decodeStandardPass, encodeStandardPass, findField, decodeCxMappingPass_encode]
  | PauliSquash s =>
    simp [decodeStandardPass, encodeStandardPass, findField, decodePauliSynthesisConfig_encode]
  | ContextSimp s =>
    simp [decodeStandardPass, encodeStandardPass, findField, decodeContextSimp_encode]
  | DecomposeTK2 s =>
    replace h : (s.fidelities.all fun f => (f.cx.all F64.isFinite) &&
      (f.zz_max.all F64.isFinite) && (f.zz_phase.all F64.isFinite)) = true := h
    simp [decodeStandardPass, encodeStandardPass, findField, decodeDecomposeTk2_encode _ _ h]
  | RoundAngles s =>
    simp [decodeStandardPass, encodeStandardPass, findField, decodeRoundAngles_encode]
  | GreedyPauliSimp s =>
    replace h : (s.discount_rate.isFinite && s.depth_weight.isFinite &&
      s.max_lookahead.isFinite && s.max_tqe_candidates.isFinite && s.seed.isFinite &&
      s.thread_timeout.isFinite && s.trials.isFinite) = true := h
    simp only [Bool.and_eq_true] at h
    obtain ⟨⟨⟨⟨⟨⟨h1, h2⟩, h3⟩, h4⟩, h5⟩, h6⟩, h7⟩ := h
    simp [decodeStandardPass, encodeStandardPass, findField,
      decodeGreedyPauliSimp_encode _ _ h1 h2 h3 h4 h5 h6 h7]
  | FlattenRelabelRegistersPass s =>
    simp [decodeStandardPass, encodeStandardPass, findField,
      decodeFlattenRelabelRegistersPass_encode]
  | RebaseCustomViaTK2 => rfl
  | CommuteThroughMultis => rfl
  | DecomposeArbitrarilyControlledGates => rfl
  | DecomposeMultiQubitsCX => rfl
  | DecomposeSingleQubitsTK1 => rfl
  | RebaseTket => rfl
  | RebaseUFR => rfl
  | RemoveRedundancies => rfl
  | SynthesiseTK => rfl
  | SynthesiseTket => rfl
  | SynthesiseOQC => rfl
  | SquashTK1 => rfl
  | SquashRzPhasedX => rfl
  | FlattenRegisters => rfl
  | ZZPhaseToRz => rfl
  | RemoveDiscarded => rfl
  | SimplifyMeasured => rfl
  | RemoveBarriers => rfl
  | RemovePhaseOps => rfl
  | DecomposeBridges => rfl
  | OptimisePairwiseGadgets => rfl
  | CnXPairwiseDecomposition => rfl
  | RemoveImplicitQubitPermutation => rfl
  | NormaliseTK2 => rfl
  | RxFromSX => rfl

/-! ## Round trip of the outer `BasePass` codec -/

mutual

theorem decodeBasePass_encode_aux (p : BasePass) (h : basePassFinite p = true) :
    decodeBasePass (encodeBasePass p) = .ok p := by
  match p with
  | .StandardPass sp =>
    simp only [basePassFinite] at h
    simp [encodeBasePass, decodeBasePass, findField, decodeStandardPass_encode sp h]
  | .SequencePass xs =>
    simp only [basePassFinite] at h
    have ih := decodePassList_encode_aux xs h
    simp [encodeBasePass, decodeBasePass, decodeSequencePayload, findField, ih]
  | .RepeatPass b =>
    simp only [basePassFinite] at h
    have ih := decodeBasePass_encode_aux b h
    simp [encodeBasePass, decodeBasePass, decodeRepeatPayload, findField, ih]
  | .RepeatWithMetricPass b m =>
    simp only [basePassFinite] at h
    have ih := decodeBasePass_encode_aux b h
    simp [encodeBasePass, decodeBasePass, decodeRepeatWithMetricPayload, findField, ih]
  | .RepeatUntilSatisfiedPass b pred =>
    simp only [basePassFinite] at h
    have ih := decodeBasePass_encode_aux b h
    simp [encodeBasePass, decodeBasePass, decodeRepeatUntilSatisfiedPayload, findField, ih]
termination_by sizeOf p

theorem decodePassList_encode_aux (ps : List BasePass) (h : passListFinite ps = true) :
    decodePassList (encodePassList ps) = .ok ps := by
  match ps with
  | [] => simp [encodePassList, decodePassList]
  | x :: xs =>
    simp only [passListFinite, Bool.and_eq_true] at h
    have ih1 := decodeBasePass_encode_aux x h.1
    have ih2 := decodePassList_encode_aux xs h.2
    simp [encodePassList, decodePassList, ih1, ih2]
termination_by sizeOf ps

end

/-! ## Claim theorems -/

/-- The `pass_class` discriminant string serde emits for each `BasePass`
variant (the variant's own name). -/
def passClass : BasePass → String
  | .StandardPass _ => "StandardPass"
  | .SequencePass _ => "SequencePass"
  | .RepeatPass _ => "RepeatPass"
  | .RepeatWithMetricPass _ _ => "RepeatWithMetricPass"
  | .RepeatUntilSatisfiedPass _ _ => "RepeatUntilSatisfiedPass"

/-- C1 (counterexample): the claim "decode(encode(p)) == p for every
constructible BasePass value" fails at the constructible value
`StandardPass(KAKDecomposition { fidelity: f64::NAN, allow_swaps: false,
target_2qb_gate: CX })`: serde_json serializes the non-finite fidelity as
`null`, which does not decode back as an `f64`, so decoding the encoded
document errors instead of returning the value. -/
theorem c1_roundtrip_counterexample :
    decodeBasePass (encodeBasePass
      (.StandardPass (.KAKDecomposition ⟨F64.nan, false, .CX⟩))) ≠
    .ok (.StandardPass (.KAKDecomposition ⟨F64.nan, false, .CX⟩)) := by
  have h : decodeBasePass (encodeBasePass
      (.StandardPass (.KAKDecomposition ⟨F64.nan, false, .CX⟩))) =
      .error (.typeMismatch "f64") := by
    simp [encodeBasePass, encodeStandardPass, encodeKakDecomposition, encodeF64,
      decodeBasePass, decodeStandardPass, decodeKakDecomposition, reqField, findField,
      decodeF64]
  rw [h]
  simp

/-- C1 (amended): for every constructible `BasePass` value all of whose `f64`
fields hold finite floats, decoding the encoded document yields a value
structurally equal to the original, across all five outer variants and every
`StandardPass` catalog variant. -/
theorem c1_roundtrip (p : BasePass) (h : basePassFinite p = true) :
    decodeBasePass (encodeBasePass p) = .ok p :=
  decodeBasePass_encode_aux p h

/-- C1 (witness): the round trip at the concrete nested value
`RepeatPass(StandardPass(KAKDecomposition { fidelity: 0.5, allow_swaps: true,
target_2qb_gate: CX }))`. -/
theorem c1_roundtrip_witness :
    basePassFinite
      (.RepeatPass (.StandardPass (.KAKDecomposition ⟨.finite (1/2), true, .CX⟩))) = true ∧
    decodeBasePass (encodeBasePass
      (.RepeatPass (.StandardPass (.KAKDecomposition ⟨.finite (1/2), true, .CX⟩)))) =
    .ok (.RepeatPass (.StandardPass (.KAKDecomposition ⟨.finite (1/2), true, .CX⟩))) :=
  ⟨by simp [basePassFinite, standardPassFinite, F64.isFinite],
   c1_roundtrip _ (by simp [basePassFinite, standardPassFinite, F64.isFinite])⟩

/-- C2 (counterexample): decoding
`{"pass_class":"StandardPass","StandardPass":{"name":"SomeFuturePass","x":1}}`
does not succeed with a placeholder — it fails with an unknown-variant error,
because the `#[non_exhaustive]` Rust attribute adds no serde catch-all
variant. -/
theorem c2_unknown_name_counterexample :
    decodeBasePass (.obj [("pass_class", .str "StandardPass"),
      ("StandardPass", .obj [("name", .str "SomeFuturePass"), ("x", .num 1)])]) =
    .error (.unknownVariant "SomeFuturePass") := by
  simp [decodeBasePass, decodeStandardPass, findField]

set_option maxHeartbeats 4000000 in
/-- C2 (amended): for every `StandardPass` payload object whose `name` field
holds a string outside the catalog's tag names, decoding fails with an
unknown-variant error naming that string; no forward-compatibility
placeholder exists. -/
theorem c2_unknown_name_error (fields : List (String × JsonValue)) (n : String)
    (h1 : findField "name" fields = some (.str n))
    (h2 : n ∉ standardPassNames) :
    decodeStandardPass (.obj fields) = .error (.unknownVariant n) := by
  simp only [standardPassNames, List.mem_cons, List.mem_singleton] at h2
  push_neg at h2
  simp only [decodeStandardPass, h1]
  split
  all_goals first
  | rfl
  | simp_all

/-- C2 (witness): the amended statement at the payload
`{"name":"SomeFuturePass","x":1}`. -/
theorem c2_unknown_name_error_witness :
    findField "name" [("name", JsonValue.str "SomeFuturePass"), ("x", .num 1)] =
      some (.str "SomeFuturePass") ∧
    "SomeFuturePass" ∉ standardPassNames ∧
    decodeStandardPass (.obj [("name", .str "SomeFuturePass"), ("x", .num 1)]) =
      .error (.unknownVariant "SomeFuturePass") :=
  ⟨rfl, by decide, c2_unknown_name_error _ _ rfl (by decide)⟩

/-- C3: every encoded `BasePass` is a JSON object with exactly two top-level
fields: `pass_class` holding the variant's discriminant string (one of the
five catalog discriminants), and a field named by that same string holding
the variant payload; nothing else is emitted. -/
theorem c3_two_field_envelope (p : BasePass) :
    passClass p ∈ basePassClassNames ∧
    ∃ payload, encodeBasePass p =
      .obj [("pass_class", .str (passClass p)), (passClass p, payload)] := by
  cases p with
  | StandardPass sp =>
    exact ⟨by simp [passClass, basePassClassNames],
      ⟨encodeStandardPass sp, by simp [encodeBasePass, passClass]⟩⟩
  | SequencePass xs =>
    exact ⟨by simp [passClass, basePassClassNames],
      ⟨.obj [("sequence", .arr (encodePassList xs))], by simp [encodeBasePass, passClass]⟩⟩
  | RepeatPass b =>
    exact ⟨by simp [passClass, basePassClassNames],
      ⟨.obj [("body", encodeBasePass b)], by simp [encodeBasePass, passClass]⟩⟩
  | RepeatWithMetricPass b m =>
    exact ⟨by simp [passClass, basePassClassNames],
      ⟨.obj [("body", encodeBasePass b), ("metric", .str m)],
        by simp [encodeBasePass, passClass]⟩⟩
  | RepeatUntilSatisfiedPass b pred =>
    exact ⟨by simp [passClass, basePassClassNames],
      ⟨.obj [("body", encodeBasePass b), ("predicate", pred)],
        by simp [encodeBasePass, passClass]⟩⟩

/-- C4 (counterexample): a document with a valid `pass_class`, its matching
payload field, and an additional unexpected top-level field `extra` decodes
successfully — serde's derived internally-tagged decoder ignores unknown
fields instead of failing with a strict-shape error. -/
theorem c4_extra_field_counterexample :
    decodeBasePass (.obj [("pass_class", .str "StandardPass"),
      ("StandardPass", .obj [("name", .str "RemoveRedundancies")]), ("extra", .num 1)]) =
    .ok (.StandardPass .RemoveRedundancies) := by
  simp [decodeBasePass, decodeStandardPass, findField]

set_option maxHeartbeats 1600000 in
/-- C4 (amended): unexpected extra top-level fields are silently ignored, not
rejected: appending an entry whose key is neither `pass_class` nor one of the
five discriminants leaves the decode result of the outer object unchanged. -/
theorem c4_extra_fields_ignored (fields : List (String × JsonValue)) (k : String)
    (v : JsonValue) (hk : k ∉ "pass_class" :: basePassClassNames) :
    decodeBasePass (.obj (fields ++ [(k, v)])) = decodeBasePass (.obj fields) := by
  simp only [basePassClassNames, List.mem_cons, List.mem_singleton] at hk
  push_neg at hk
  obtain ⟨n0, n1, n2, n3, n4, n5, -⟩ := hk
  have e0 := findField_append_ne (l := fields) (v := v) (fun e => n0 e.symm)
  have e1 := findField_append_ne (l := fields) (v := v) (fun e => n1 e.symm)
  have e2 := findField_append_ne (l := fields) (v := v) (fun e => n2 e.symm)
  have e3 := findField_append_ne (l := fields) (v := v) (fun e => n3 e.symm)
  have e4 := findField_append_ne (l := fields) (v := v) (fun e => n4 e.symm)
  have e5 := findField_append_ne (l := fields) (v := v) (fun e => n5 e.symm)
  simp only [decodeBasePass, e0, e1, e2, e3, e4, e5]

/-- C4 (witness): the amended statement at a concrete well-formed document
with an appended `extra` field. -/
theorem c4_extra_fields_ignored_witness :
    "extra" ∉ "pass_class" :: basePassClassNames ∧
    decodeBasePass (.obj ([("pass_class", .str "StandardPass"),
        ("StandardPass", .obj [("name", .str "RemoveRedundancies")])] ++
        [("extra", .num 1)])) =
      decodeBasePass (.obj [("pass_class", .str "StandardPass"),
        ("StandardPass", .obj [("name", .str "RemoveRedundancies")])]) :=
  ⟨by decide, c4_extra_fields_ignored _ _ _ (by decide)⟩

/-- C6 (counterexample): in `DecomposeBoxes` the exclusion lists are *not*
optional: a document that omits `excluded_types` fails to decode with a
missing-field error instead of decoding with that filter absent. -/
theorem c6_required_exclusions_counterexample :
    decodeBasePass (.obj [("pass_class", .str "StandardPass"),
      ("StandardPass", .obj [("name", .str "DecomposeBoxes"),
        ("excluded_opgroups", .arr [])])]) =
    .error (.missingField "excluded_types") := by
  simp [decodeBasePass, decodeStandardPass, decodeDecomposeBoxes, reqField, findField]

/-- C6 (amended): only the two inclusion lists (`included_types`,
`included_opgroups`) of `DecomposeBoxes` are optional — a document omitting
them decodes with those filters absent (`none`, meaning "no filter"), and
absent lists are omitted from the encoded form — whereas the two exclusion
lists (`excluded_types`, `excluded_opgroups`) are required and their absence
is a missing-field decode error. -/
theorem c6_decompose_boxes_optionality (et eo : List String) :
    decodeStandardPass (.obj [("name", .str "DecomposeBoxes"),
        ("excluded_types", encodeStrList et), ("excluded_opgroups", encodeStrList eo)]) =
      .ok (.DecomposeBoxes ⟨et, eo, none, none⟩) ∧
    encodeStandardPass (.DecomposeBoxes ⟨et, eo, none, none⟩) =
      .obj [("name", .str "DecomposeBoxes"),
        ("excluded_types", encodeStrList et), ("excluded_opgroups", encodeStrList eo)] ∧
    decodeStandardPass (.obj [("name", .str "DecomposeBoxes"),
        ("excluded_opgroups", encodeStrList eo)]) =
      .error (.missingField "excluded_types") ∧
    decodeStandardPass (.obj [("name", .str "DecomposeBoxes"),
        ("excluded_types", encodeStrList et)]) =
      .error (.missingField "excluded_opgroups") := by
  refine ⟨?_, ?_, ?_, ?_⟩ <;>
    simp [decodeStandardPass, encodeStandardPass, decodeDecomposeBoxes,
      encodeDecomposeBoxes, reqField, optField, optEntry, findField, encodeStrList]

set_option maxHeartbeats 1600000 in
/-- C7: for every document whose `pass_class` field holds a string outside
the fixed set of five outer discriminants, decoding fails with an
unknown-variant error naming that string — the outer union is closed and
never decodes an unknown discriminant into a placeholder. -/
theorem c7_unknown_pass_class (fields : List (String × JsonValue)) (tag : String)
    (h1 : findField "pass_class" fields = some (.str tag))
    (h2 : tag ∉ basePassClassNames) :
    decodeBasePass (.obj fields) = .error (.unknownVariant tag) := by
  simp only [basePassClassNames, List.mem_cons, List.mem_singleton] at h2
  push_neg at h2
  obtain ⟨n1, n2, n3, n4, n5⟩ := h2
  simp only [decodeBasePass, h1]
  split
  · simp_all
  · simp_all
  · simp_all
  · simp_all
  · simp_all
  · rfl

/-- C7 (witness): the statement at the concrete document
`{"pass_class":"FancyPass"}`. -/
theorem c7_unknown_pass_class_witness :
    findField "pass_class" [("pass_class", JsonValue.str "FancyPass")] =
      some (.str "FancyPass") ∧
    "FancyPass" ∉ basePassClassNames ∧
    decodeBasePass (.obj [("pass_class", .str "FancyPass")]) =
      .error (.unknownVariant "FancyPass") :=
  ⟨rfl, by decide, c7_unknown_pass_class _ _ rfl (by decide)⟩

/-- C8: a document whose `pass_class` is `"SequencePass"` but which has no
field named exactly `"SequencePass"` (e.g. the payload sits in a field named
`"sequence"` instead) fails to decode with a missing-field error for the
`"SequencePass"` payload field — the payload field's name must equal the
discriminant string exactly. -/
theorem c8_payload_field_must_match_tag (fields : List (String × JsonValue))
    (h1 : findField "pass_class" fields = some (.str "SequencePass"))
    (h2 : findField "SequencePass" fields = none) :
    decodeBasePass (.obj fields) = .error (.missingField "SequencePass") := by
  simp only [decodeBasePass, h1, h2]
  simp [decodeSequencePayload]

/-- C8 (witness): the statement at the concrete document
`{"pass_class":"SequencePass","sequence":[]}`. -/
theorem c8_payload_field_must_match_tag_witness :
    findField "pass_class"
        [("pass_class", JsonValue.str "SequencePass"), ("sequence", .arr [])] =
      some (.str "SequencePass") ∧
    findField "SequencePass"
        [("pass_class", JsonValue.str "SequencePass"), ("sequence", .arr [])] = none ∧
    decodeBasePass (.obj [("pass_class", .str "SequencePass"), ("sequence", .arr [])]) =
      .error (.missingField "SequencePass") :=
  ⟨rfl, rfl, c8_payload_field_must_match_tag _ rfl rfl⟩

/-- C9: encoding a `DecomposeBoxes` with both inclusion lists absent emits
exactly the keys `excluded_types` and `excluded_opgroups` — no
`included_types`/`included_opgroups` key at all, hence never an explicit
`null` — and conversely decoding a field list missing those keys yields the
absent value (`none`), never a defaulted placeholder. -/
theorem c9_optional_omission (et eo : List String) :
    (encodeDecomposeBoxes ⟨et, eo, none, none⟩).map Prod.fst =
      ["excluded_types", "excluded_opgroups"] ∧
    decodeDecomposeBoxes
        [("excluded_types", encodeStrList et), ("excluded_opgroups", encodeStrList eo)] =
      .ok ⟨et, eo, none, none⟩ := by
  constructor
  · simp [encodeDecomposeBoxes, optEntry]
  · simp [decodeDecomposeBoxes, reqField, optField, findField, encodeStrList]

/-- C10: a `QubitMapping` value encodes as the two-element JSON array
`[source, destination]` preserving pair order, decodes from exactly such
two-element arrays (any other array length is an invalid-length error), and
consequently `RenameQubitsPass.qubit_map` encodes as an array of two-element
arrays. -/
theorem c10_qubit_mapping_pairs (a b : ElementId) (l : List JsonValue)
    (qm : List QubitMapping) :
    encodeQubitMapping ⟨a, b⟩ = .arr [a, b] ∧
    decodeQubitMapping (.arr [a, b]) = .ok ⟨a, b⟩ ∧
    (l.length ≠ 2 → decodeQubitMapping (.arr l) = .error (.invalidLength 2)) ∧
    encodeStandardPass (.RenameQubitsPass ⟨qm⟩) =
      .obj [("name", .str "RenameQubitsPass"),
        ("qubit_map", .arr (qm.map encodeQubitMapping))] := by
  refine ⟨rfl, rfl, ?_, by simp [encodeStandardPass, encodeRenameQubitsPass]⟩
  intro hl
  match l with
  | [] => rfl
  | [x] => rfl
  | [x, y] => exact absurd rfl hl
  | x :: y :: z :: t => rfl

/-- C10 (witness): the statement applied at concrete element identifiers and
a concrete wrong-length array. -/
theorem c10_qubit_mapping_pairs_witness :
    encodeQubitMapping ⟨.null, .bool true⟩ = .arr [.null, .bool true] ∧
    decodeQubitMapping (.arr []) = .error (.invalidLength 2) :=
  ⟨(c10_qubit_mapping_pairs .null (.bool true) [] []).1,
   (c10_qubit_mapping_pairs .null .null [] []).2.2.1 (by decide)⟩
